import Mathlib

/-!
Verification of the colineal-crm-whatsapp webhook pipeline.

The development shallowly embeds the Python sources:
  * `src/services/redis_service.py`       (dedup gate)
  * `src/services/conversation_service.py` (conversation store / consolidation)
  * `src/services/ai_classifier.py`        (classifier adapter / decision logic)
  * `src/services/odoo_service.py`         (record synchronizer)
  * `src/api/whatsapp_webhook.py`          (webhook pipeline)

JSON-like Python values (the dictionaries produced by `json.loads` and
passed around the services) are embedded as the inductive type `PyVal`.
Python numbers (int/float) are embedded as rationals; `bool` is kept
separate but coerces to a number where Python would (comparisons, `==`).
Python exceptions are embedded with `Except Unit`; `try/except` blocks
become matches on that result.  External calls (Redis, the Gemini oracle,
Odoo, Twilio) are embedded as explicit environment parameters describing
the outcome of each call; the observable store mutations and outbound
sends are collected in an effect trace.
-/

/-- A Python/JSON value as passed between the services. -/
inductive PyVal where
  | none
  | bool (b : Bool)
  | num (q : ℚ)
  | str (s : String)
  | arr (xs : List PyVal)
  | obj (kvs : List (String × PyVal))

mutual

def PyVal.hasDecEq : (a b : PyVal) → Decidable (a = b)
  | .none, .none => isTrue rfl
  | .bool a, .bool b =>
    match decEq a b with
    | isTrue h => isTrue (by rw [h])
    | isFalse h => isFalse (by simp only [PyVal.bool.injEq]; exact h)
  | .num a, .num b =>
    match decEq a b with
    | isTrue h => isTrue (by rw [h])
    | isFalse h => isFalse (by simp only [PyVal.num.injEq]; exact h)
  | .str a, .str b =>
    match decEq a b with
    | isTrue h => isTrue (by rw [h])
    | isFalse h => isFalse (by simp only [PyVal.str.injEq]; exact h)
  | .arr a, .arr b =>
    match PyVal.hasDecEqList a b with
    | isTrue h => isTrue (by rw [h])
    | isFalse h => isFalse (by simp only [PyVal.arr.injEq]; exact h)
  | .obj a, .obj b =>
    match PyVal.hasDecEqObj a b with
    | isTrue h => isTrue (by rw [h])
    | isFalse h => isFalse (by simp only [PyVal.obj.injEq]; exact h)
  | .none, .bool _ | .none, .num _ | .none, .str _ | .none, .arr _ | .none, .obj _
  | .bool _, .none | .bool _, .num _ | .bool _, .str _ | .bool _, .arr _ | .bool _, .obj _
  | .num _, .none | .num _, .bool _ | .num _, .str _ | .num _, .arr _ | .num _, .obj _
  | .str _, .none | .str _, .bool _ | .str _, .num _ | .str _, .arr _ | .str _, .obj _
  | .arr _, .none | .arr _, .bool _ | .arr _, .num _ | .arr _, .str _ | .arr _, .obj _
  | .obj _, .none | .obj _, .bool _ | .obj _, .num _ | .obj _, .str _ | .obj _, .arr _ =>
    isFalse (by intro h; exact PyVal.noConfusion h)

def PyVal.hasDecEqList : (a b : List PyVal) → Decidable (a = b)
  | [], [] => isTrue rfl
  | [], _ :: _ => isFalse (by intro h; exact List.noConfusion h)
  | _ :: _, [] => isFalse (by intro h; exact List.noConfusion h)
  | a :: as, b :: bs =>
    match PyVal.hasDecEq a b with
    | isTrue h1 =>
      match PyVal.hasDecEqList as bs with
      | isTrue h2 => isTrue (by rw [h1, h2])
      | isFalse h2 => isFalse (by simp only [List.cons.injEq]; intro hc; exact h2 hc.2)
    | isFalse h1 => isFalse (by simp only [List.cons.injEq]; intro hc; exact h1 hc.1)

def PyVal.hasDecEqObj : (a b : List (String × PyVal)) → Decidable (a = b)
  | [], [] => isTrue rfl
  | [], _ :: _ => isFalse (by intro h; exact List.noConfusion h)
  | _ :: _, [] => isFalse (by intro h; exact List.noConfusion h)
  | (k1, v1) :: as, (k2, v2) :: bs =>
    match decEq k1 k2 with
    | isTrue hk =>
      match PyVal.hasDecEq v1 v2 with
      | isTrue hv =>
        match PyVal.hasDecEqObj as bs with
        | isTrue h2 => isTrue (by rw [hk, hv, h2])
        | isFalse h2 => isFalse (by simp only [List.cons.injEq]; intro hc; exact h2 hc.2)
      | isFalse hv => isFalse (by
          simp only [List.cons.injEq, Prod.mk.injEq]; intro hc; exact hv hc.1.2)
    | isFalse hk => isFalse (by
        simp only [List.cons.injEq, Prod.mk.injEq]; intro hc; exact hk hc.1.1)

end

instance : DecidableEq PyVal := PyVal.hasDecEq

/-- A Python dictionary with string keys (insertion-ordered association
list with unique keys, as every dict in the sources is built). -/
abbrev PyDict := List (String × PyVal)

/-- Python truthiness (`if v:`): `None`, `False`, `0`, `""`, `[]`, `{}`
are falsy, everything else truthy. -/
def PyVal.truthy : PyVal → Bool
  | .none => false
  | .bool b => b
  | .num q => q != 0
  | .str s => s ≠ ""
  | .arr xs => ¬ xs.isEmpty
  | .obj kvs => ¬ kvs.isEmpty

/-- Numeric value of a Python `bool` (`True == 1`, `False == 0`). -/
def pyNumOfBool (b : Bool) : ℚ := if b then 1 else 0

/-- `d.get(k)` without default: `some v` when the key is present. -/
def dictGet? (d : PyDict) (k : String) : Option PyVal :=
  (d.find? (fun kv => kv.1 = k)).map (fun kv => kv.2)

/-- `d.get(k, dflt)`. -/
def dictGetD (d : PyDict) (k : String) (dflt : PyVal) : PyVal :=
  (dictGet? d k).getD dflt

/-- `k in d` for a dict. -/
def containsKey (d : PyDict) (k : String) : Bool :=
  d.any (fun kv => kv.1 = k)

/-- `d[k] = v`: update in place when the key exists (keeping its
position, as CPython dicts do), otherwise append. -/
def dictSet (d : PyDict) (k : String) (v : PyVal) : PyDict :=
  if containsKey d k then
    d.map (fun kv => if kv.1 = k then (k, v) else kv)
  else
    d ++ [(k, v)]

mutual

/-- Python `==` on the embedded values: `bool` coerces to its numeric
value against numbers, lists compare elementwise, dicts compare as
key-value maps; values of unrelated types compare unequal. -/
def pyEqb : PyVal → PyVal → Bool
  | .none, b => match b with | .none => true | _ => false
  | .bool x, b =>
    match b with
    | .bool y => x == y
    | .num q => pyNumOfBool x == q
    | _ => false
  | .num p, b =>
    match b with
    | .num q => p == q
    | .bool y => p == pyNumOfBool y
    | _ => false
  | .str s, b => match b with | .str t => s == t | _ => false
  | .arr xs, b => match b with | .arr ys => pyEqbList xs ys | _ => false
  | .obj kvs, b =>
    match b with
    | .obj l2 => kvs.length == l2.length && pyEqbObj kvs l2
    | _ => false

def pyEqbList : List PyVal → List PyVal → Bool
  | [], ys => ys.isEmpty
  | x :: xs, ys =>
    match ys with
    | [] => false
    | y :: ys => pyEqb x y && pyEqbList xs ys

def pyEqbObj : List (String × PyVal) → List (String × PyVal) → Bool
  | [], _ => true
  | (k, v) :: kvs, l2 =>
    (match (l2.find? (fun kv => kv.1 = k)).map (fun kv => kv.2) with
     | some w => pyEqb v w
     | Option.none => false) && pyEqbObj kvs l2

end

/-- Python `x in l` for a list (membership via `==`). -/
def pyMem (x : PyVal) (l : List PyVal) : Bool :=
  l.any (fun y => pyEqb y x)

/-- Adding one element to a Python `set`, embedded as the list of the
set's elements in order of first insertion (the mathematical content of
the set; the iteration order of a CPython set is NOT this order, see
`pySetToList`). -/
def pySetAdd (s : List PyVal) (x : PyVal) : List PyVal :=
  if pyMem x s then s else s ++ [x]

/-- Only hashable values can enter a `set`; lists and dicts raise
`TypeError`. -/
def pyHashable : PyVal → Bool
  | .arr _ => false
  | .obj _ => false
  | _ => true

/-- Iterating a Python value (`for x in v`, `set.update(v)`,
`", ".join(v)`): strings iterate their characters, lists their elements,
dicts their keys; `None`, booleans and numbers raise `TypeError`. -/
def pyIter : PyVal → Except Unit (List PyVal)
  | .str s => .ok (s.data.map (fun c => PyVal.str (String.mk [c])))
  | .arr xs => .ok xs
  | .obj kvs => .ok (kvs.map (fun kv => PyVal.str kv.1))
  | _ => .error ()

/-- `set.update(v)`: iterate `v` and add each element, raising
`TypeError` on a non-iterable argument or an unhashable element. -/
def pySetUpdate (s : List PyVal) (v : PyVal) : Except Unit (List PyVal) := do
  let xs ← pyIter v
  xs.foldlM (fun acc x =>
    if pyHashable x then .ok (pySetAdd acc x) else .error ()) s

/-- Python `v >= q` against a numeric literal: numbers compare
numerically, booleans coerce, other types raise `TypeError`. -/
def pyGeQ (v : PyVal) (q : ℚ) : Except Unit Bool :=
  match v with
  | .num p => .ok (q ≤ p)
  | .bool b => .ok (q ≤ pyNumOfBool b)
  | _ => .error ()

mutual

/-- `repr()` of a value, used when a list or dict is rendered inside an
f-string.  The numeric rendering is abstracted (exact digit strings of
CPython floats are not modelled); no claim depends on it. -/
def pyRepr : PyVal → String
  | .none => "None"
  | .bool b => if b then "True" else "False"
  | .num q => toString q
  | .str s => "'" ++ s ++ "'"
  | .arr xs => "[" ++ pyReprList xs ++ "]"
  | .obj kvs => "\x7b" ++ pyReprObj kvs ++ "\x7d"

def pyReprList : List PyVal → String
  | [] => ""
  | [x] => pyRepr x
  | x :: xs => pyRepr x ++ ", " ++ pyReprList xs

def pyReprObj : List (String × PyVal) → String
  | [] => ""
  | [(k, v)] => "'" ++ k ++ "': " ++ pyRepr v
  | (k, v) :: kvs => "'" ++ k ++ "': " ++ pyRepr v ++ ", " ++ pyReprObj kvs

end

/-- `str()` of a value, as interpolated by an f-string. -/
def pyToStr : PyVal → String
  | .str s => s
  | v => pyRepr v

/-! ## Classifier adapter (`src/services/ai_classifier.py`) -/

/-- `AIClassifier._determine_action` (fallback when the oracle output has
no `recommended_action`). -/
def determineAction (ad : PyDict) : String :=
  if (dictGetD ad "is_support_request" (.bool false)).truthy then "transfer_to_support"
  else if (dictGetD ad "has_sufficient_info" (.bool false)).truthy then "create_lead"
  else "continue_conversation"

/-- `AIClassifier._ensure_compatibility`: copies the nested `analysis`
fields to the top level with defaults.  Raises (`.error`) exactly when
the `analysis` entry is present but not a dict, which in the source is an
`AttributeError` on `.get` caught by `analyze_message_completeness`. -/
def ensureCompatibility (analysis : PyDict) : Except Unit PyDict :=
  match dictGetD analysis "analysis" (.obj []) with
  | .obj ad =>
    let d1 := if containsKey analysis "recommended_action" then analysis
              else dictSet analysis "recommended_action" (.str (determineAction ad))
    let d2 := dictSet d1 "has_sufficient_info" (dictGetD ad "has_sufficient_info" (.bool false))
    let d3 := dictSet d2 "extracted_data" (dictGetD ad "extracted_data" (.obj []))
    let d4 := dictSet d3 "confidence_score" (dictGetD ad "confidence_score" (.num 0))
    let d5 := dictSet d4 "quality_assessment" (dictGetD ad "quality_assessment" (.str "cold"))
    let d6 := dictSet d5 "is_support_request" (dictGetD ad "is_support_request" (.bool false))
    let d7 := dictSet d6 "conversation_stage" (dictGetD ad "conversation_stage" (.str "initial"))
    let d8 := dictSet d7 "next_question" (dictGetD d7 "suggested_reply" (.str "¿En qué puedo ayudarte?"))
    let d9 := dictSet d8 "natural_response" (dictGetD d8 "suggested_reply" (.str "¿En qué puedo ayudarte?"))
    .ok d9
  | _ => .error ()

/-- `AIClassifier._calculate_missing_info`.  Raises when `extracted_data`
is not a dict. -/
def calculateMissingInfo (analysis : PyDict) : Except Unit (List PyVal) :=
  match dictGetD analysis "extracted_data" (.obj []) with
  | .obj extracted =>
    let m1 : List PyVal :=
      if (dictGetD extracted "name" .none).truthy then [] else [.str "contact_info"]
    let m2 : List PyVal :=
      if (dictGetD extracted "product_interest" .none).truthy then [] else [.str "specific_product"]
    let intent := dictGetD extracted "intent" .none
    let m3 : List PyVal :=
      if !intent.truthy || pyEqb intent (.str "información_general") then [.str "clear_intent"] else []
    .ok (m1 ++ m2 ++ m3)
  | _ => .error ()

/-- `AIClassifier._add_professional_logic`: the decision chain that sets
`final_action`.  The `elif` chain evaluates `and` lazily, so the
`confidence >= 0.7` / `>= 0.5` comparisons (which raise `TypeError` on
non-numeric values) only run when the matching quality equality holds. -/
def addProfessionalLogic (analysis : PyDict) : Except Unit PyDict := do
  let quality := dictGetD analysis "quality_assessment" (.str "cold")
  let confidence := dictGetD analysis "confidence_score" (.num 0)
  let fa ←
    if (dictGetD analysis "is_support_request" (.bool false)).truthy then
      Except.ok "transfer_to_helpdesk"
    else do
      let hot ← if pyEqb quality (.str "hot") then pyGeQ confidence (mkRat 7 10)
                else Except.ok false
      if hot && (dictGetD analysis "has_sufficient_info" (.bool false)).truthy then
        Except.ok "create_lead_immediate"
      else do
        let warm ← if pyEqb quality (.str "warm") then pyGeQ confidence (mkRat 1 2)
                   else Except.ok false
        if warm then Except.ok "nurture_and_qualify"
        else Except.ok "educate_and_build_interest"
  let d1 := dictSet analysis "final_action" (.str fa)
  let d2 := dictSet d1 "lead_quality" quality
  let missing ← calculateMissingInfo d2
  Except.ok (dictSet d2 "missing_for_lead" (.arr missing))

/-- `AIClassifier._fallback_analysis`: the fixed fallback value. -/
def fallbackAnalysis : PyDict :=
  [("analysis", .obj [
      ("has_sufficient_info", .bool false),
      ("missing_info", .arr [.str "all_info"]),
      ("extracted_data", .obj []),
      ("confidence_score", .num (mkRat 1 10)),
      ("quality_assessment", .str "cold"),
      ("is_support_request", .bool false),
      ("conversation_stage", .str "initial")]),
   ("suggested_reply", .str "¡Hola! Soy el asistente de COLINEAL. ¿En qué puedo ayudarte hoy?"),
   ("recommended_action", .str "continue_conversation"),
   ("has_sufficient_info", .bool false),
   ("extracted_data", .obj []),
   ("confidence_score", .num (mkRat 1 10)),
   ("quality_assessment", .str "cold"),
   ("is_support_request", .bool false),
   ("conversation_stage", .str "initial"),
   ("next_question", .str "¡Hola! Soy el asistente de COLINEAL. ¿En qué puedo ayudarte hoy?"),
   ("natural_response", .str "¡Hola! Soy el asistente de COLINEAL. ¿En qué puedo ayudarte hoy?"),
   ("final_action", .str "educate_and_build_interest"),
   ("lead_quality", .str "cold"),
   ("missing_for_lead", .arr [.str "all_info"])]

/-- Outcome of the oracle call as seen by `analyze_message_completeness`:
`.error` covers a raising `generate_content` (timeout/API error) as well
as `json.loads` failing on the stripped text; `.ok v` is the parsed JSON
value. -/
abbrev OracleOutcome := Except Unit PyVal

/-- `AIClassifier.analyze_message_completeness`: the whole body is inside
`try/except`, so a raising oracle call, unparseable text, a non-object
JSON value (whose `.get`/`in` uses raise), or a raise inside the
compatibility/professional steps all produce `_fallback_analysis()`. -/
def analyzeMessageCompleteness (oracle : OracleOutcome) : PyDict :=
  match oracle with
  | .error _ => fallbackAnalysis
  | .ok v =>
    match v with
    | .obj d =>
      match ensureCompatibility d >>= addProfessionalLogic with
      | .ok d2 => d2
      | .error _ => fallbackAnalysis
    | _ => fallbackAnalysis

/-- `AIClassifier.should_create_lead`. -/
def shouldCreateLead (analysis : PyDict) : Bool :=
  pyEqb (dictGetD analysis "final_action" .none) (.str "create_lead_immediate") ||
  (pyEqb (dictGetD analysis "recommended_action" .none) (.str "create_lead") &&
   (dictGetD analysis "has_sufficient_info" (.bool false)).truthy &&
   !(dictGetD analysis "is_support_request" (.bool false)).truthy)

/-- The spec's closed Action set.  The source represents actions as
strings; the webhook routes `final_action == "transfer_to_helpdesk"` to
the support-transfer handler, which the spec names `transfer_to_support`. -/
inductive SpecAction where
  | transfer_to_support
  | create_lead_immediate
  | nurture_and_qualify
  | educate_and_build_interest
deriving DecidableEq

/-- Decodes the source's `final_action` strings into the spec's Action
set. -/
def actionOfFinalAction (s : String) : Option SpecAction :=
  if s = "transfer_to_helpdesk" then some .transfer_to_support
  else if s = "create_lead_immediate" then some .create_lead_immediate
  else if s = "nurture_and_qualify" then some .nurture_and_qualify
  else if s = "educate_and_build_interest" then some .educate_and_build_interest
  else Option.none

/-- Tests whether a value is a Python dict. -/
def PyVal.isObj : PyVal → Bool
  | .obj _ => true
  | _ => false

/-! ## Conversation store (`src/services/conversation_service.py`) -/

/-- The `collected` dict built by `_extract_collected_data`; its keys are
fixed, so it is embedded as a structure.  `product_interest` holds the
elements of the Python `set` listed in order of first insertion (the
mathematical content; iteration order of the CPython set is unspecified,
see `pySetToList`). -/
structure Collected where
  name : PyVal
  email : PyVal
  product_interest : List PyVal
  location : PyVal
  budget_range : PyVal
  urgency : PyVal
  specific_needs : List PyVal
deriving DecidableEq

def collectedInit : Collected :=
  { name := .none, email := .none, product_interest := [], location := .none,
    budget_range := .none, urgency := .none, specific_needs := [] }

/-- The five scalar consolidations of `_extract_collected_data`
("último valor válido gana"): each field is overwritten when the
incoming value is Python-truthy. -/
def scalarUpd (e : PyDict) (c : Collected) : Collected :=
  let c := if (dictGetD e "name" .none).truthy then
             { c with name := dictGetD e "name" .none } else c
  let c := if (dictGetD e "email" .none).truthy then
             { c with email := dictGetD e "email" .none } else c
  let c := if (dictGetD e "location" .none).truthy then
             { c with location := dictGetD e "location" .none } else c
  let c := if (dictGetD e "budget_range" .none).truthy then
             { c with budget_range := dictGetD e "budget_range" .none } else c
  if (dictGetD e "urgency" .none).truthy then
    { c with urgency := dictGetD e "urgency" .none } else c

/-- The `product_interest` accumulation (`set.update`) of
`_extract_collected_data`. -/
def interestUpd (e : PyDict) (c : Collected) : Except Unit Collected :=
  if (dictGetD e "product_interest" .none).truthy then do
    let s ← pySetUpdate c.product_interest (dictGetD e "product_interest" .none)
    Except.ok { c with product_interest := s }
  else Except.ok c

/-- The `specific_needs` accumulation (distinct intents) of
`_extract_collected_data`. -/
def intentUpd (e : PyDict) (c : Collected) : Collected :=
  if (dictGetD e "intent" .none).truthy && !(pyMem (dictGetD e "intent" .none) c.specific_needs) then
    { c with specific_needs := c.specific_needs ++ [dictGetD e "intent" .none] } else c

/-- One iteration of the `for message in history` loop of
`_extract_collected_data`.  Raises (`TypeError`/`AttributeError`) when a
message, its `analysis` or its `extracted_data` is not a dict, or on a
bad `set.update` argument. -/
def extractStep (c : Collected) (message : PyVal) : Except Unit Collected :=
  match message with
  | .obj m =>
    match dictGetD m "analysis" (.obj []) with
    | .obj a =>
      match dictGetD a "extracted_data" (.obj []) with
      | .obj e => do
        let c1 ← interestUpd e (scalarUpd e c)
        Except.ok (intentUpd e c1)
      | _ => .error ()
    | _ => .error ()
  | _ => .error ()

def extractCollectedDataAux (c : Collected) : List PyVal → Except Unit Collected
  | [] => .ok c
  | m :: ms => do extractCollectedDataAux (← extractStep c m) ms

/-- `ConversationService._extract_collected_data` (the consolidation
scan; the final `list(set)` conversion is `pySetToList`). -/
def extractCollectedData (history : List PyVal) : Except Unit Collected :=
  extractCollectedDataAux collectedInit history

/-- `list(s)` on a CPython set: the iteration order is hash-based and
unspecified (and salted for strings), so it is modelled as an arbitrary
enumeration choosing some permutation of the set's elements. -/
def pySetToList (enum : List PyVal → List PyVal) (s : List PyVal) : List PyVal := enum s

/-- An admissible set enumeration returns a permutation of the set's
elements. -/
def validSetEnum (enum : List PyVal → List PyVal) : Prop :=
  ∀ l : List PyVal, (enum l).Perm l

/-- `ConversationService._determine_conversation_stage`. -/
def determineConversationStage (history : List PyVal) (c : Collected) : Except Unit String :=
  if history.isEmpty then .ok "initial"
  else
    match history.getLast? with
    | some (.obj lm) =>
      match dictGetD lm "analysis" (.obj []) with
      | .obj la =>
        if (dictGetD la "is_support_request" (.bool false)).truthy then .ok "support"
        else
          let hasContact := c.name.truthy || c.email.truthy
          let hasInterest := c.product_interest.length > 0
          let hasClearIntent := c.specific_needs.length > 0
          if hasContact && hasInterest && hasClearIntent then .ok "ready_for_lead"
          else if hasInterest || hasClearIntent then .ok "gathering_info"
          else .ok "qualification"
      | _ => .error ()
    | _ => .error ()

/-- `ConversationService._needs_follow_up`. -/
def needsFollowUp (history : List PyVal) : Except Unit Bool :=
  match history.getLast? with
  | some (.obj lm) =>
    if pyEqb (dictGetD lm "type" .none) (.str "user") then
      match dictGetD lm "analysis" (.obj []) with
      | .obj la => .ok (!(dictGetD la "has_sufficient_info" (.bool false)).truthy)
      | _ => .error ()
    else .ok false
  | some _ => .error ()
  | Option.none => .ok false

/-- The part of the context dict of
`ConversationService.get_conversation_context` that the webhook reads:
`conversation_stage` and `history` (the last 5 turns; absent, hence `[]`
after `.get("history", [])`, for a new conversation).  The remaining
entries are computed for their raising behaviour. -/
structure ConvContext where
  conversation_stage : String
  history5 : List PyVal
deriving DecidableEq

/-- `ConversationService.get_conversation_context`, as a pure function of
the stored history. -/
def getConversationContextPure (history : List PyVal) : Except Unit ConvContext :=
  if history.isEmpty then .ok ⟨"initial", []⟩
  else do
    let c ← extractCollectedData history
    let stage ← determineConversationStage history c
    match history.getLast? with
    | some (.obj _) => do
      let _ ← needsFollowUp history
      Except.ok ⟨stage, history.drop (history.length - 5)⟩
    | _ => .error ()

/-! Claim-side consolidation functions (spec wording, for comparison). -/

/-- Unwraps a dict value, defaulting to the empty dict. -/
def asObj (v : PyVal) : PyDict :=
  match v with
  | .obj d => d
  | _ => []

/-- The `extracted_data` dict of one stored message, as the
consolidation scan reads it. -/
def extractedOf (m : PyVal) : PyDict :=
  asObj (dictGetD (asObj (dictGetD (asObj m) "analysis" (.obj []))) "extracted_data" (.obj []))

/-- The stream of values of one `extracted_data` field over a history,
as read by the consolidation scan. -/
def scalarStream (history : List PyVal) (field : String) : List PyVal :=
  history.map (fun m => dictGetD (extractedOf m) field .none)

/-- Spec wording for C5: the last non-null (`None`) value of the stream. -/
def lastNonNull (vs : List PyVal) : PyVal :=
  vs.foldl (fun acc v => if v = .none then acc else v) .none

/-- What the code computes: the last Python-truthy value of the stream,
starting from an initial accumulator. -/
def lastTruthyFrom (init : PyVal) (vs : List PyVal) : PyVal :=
  vs.foldl (fun acc v => if v.truthy then v else acc) init

def lastTruthy (vs : List PyVal) : PyVal := lastTruthyFrom .none vs

/-! ## Record synchronizer (`src/services/odoo_service.py`) -/

/-- One pass of `str.replace("whatsapp:", "")`: scan left to right,
removing each non-overlapping occurrence and continuing after it. -/
def removeWamidTag : List Char → List Char
  | 'w' :: 'h' :: 'a' :: 't' :: 's' :: 'a' :: 'p' :: 'p' :: ':' :: rest => removeWamidTag rest
  | c :: cs => c :: removeWamidTag cs
  | [] => []

/-- Substring test for the fixed pattern `"whatsapp:"` (matching the
scan of `removeWamidTag`). -/
def hasWamidTag : List Char → Bool
  | 'w' :: 'h' :: 'a' :: 't' :: 's' :: 'a' :: 'p' :: 'p' :: ':' :: _ => true
  | _ :: cs => hasWamidTag cs
  | [] => false

/-- `str.replace(c, "")` for a single character: removes every
occurrence. -/
def removeChar (ch : Char) (s : List Char) : List Char :=
  s.filter (fun c => c ≠ ch)

/-- Python `sub in s` substring containment. -/
def hasSubstr (p : List Char) : List Char → Bool
  | [] => p.isEmpty
  | c :: cs => List.isPrefixOf p (c :: cs) || hasSubstr p cs

/-- The phone normalization of `_find_existing_lead` and
`search_leads_by_phone`:
`phone_number.replace("whatsapp:", "").replace("+", "").replace(" ", "")`. -/
def cleanPhoneChars (s : List Char) : List Char :=
  removeChar ' ' (removeChar '+' (removeWamidTag s))

def cleanPhone (s : String) : String := String.mk (cleanPhoneChars s.data)

/-- `OdooService._extract_basic_analysis`: total; every internal raise is
caught and mapped to a fixed string. -/
def extractBasicAnalysis (aiAnalysis : PyVal) : String :=
  match aiAnalysis with
  | .obj d =>
    match (dictGet? d "analysis").getD (.obj d) with
    | .obj ad =>
      match dictGetD ad "extracted_data" (.obj []) with
      | .obj ed =>
        let i := pyToStr (dictGetD ed "intent" (.str "Sin análisis"))
        let q := pyToStr (dictGetD ad "quality_assessment" (.str "N/A"))
        "Intención: " ++ i ++ ", Calidad: " ++ q
      | _ => "Error procesando análisis"
    | _ => "Error procesando análisis"
  | _ => "Sin análisis disponible"

/-- `OdooService._validate_basic_lead_data`: keeps only the basic fields
whose value is not `None` and whose `str()` form is non-blank. -/
def validateBasicLeadData (leadData : PyDict) : PyDict :=
  let keep (v : PyVal) : Bool := v ≠ .none && (pyToStr v).trim ≠ ""
  let addOpt (acc : PyDict) (field : String) (v : PyVal) : PyDict :=
    if keep v then acc ++ [(field, v)] else acc
  let acc : PyDict := [("name", dictGetD leadData "name" (.str "Lead WhatsApp Sin Nombre"))]
  let acc := addOpt acc "contact_name" (dictGetD leadData "contact_name" .none)
  let acc := addOpt acc "email_from" (dictGetD leadData "email_from" .none)
  let acc := addOpt acc "phone" (dictGetD leadData "phone" .none)
  let acc := addOpt acc "mobile" (dictGetD leadData "mobile" .none)
  let acc := addOpt acc "city" (dictGetD leadData "city" .none)
  let acc := addOpt acc "description" (dictGetD leadData "description" .none)
  addOpt acc "priority" (dictGetD leadData "priority" (.str "1"))

/-- The timestamped section appended to the description by
`_update_existing_lead_basic`. -/
def newMessageSection (ts message summary : String) : String :=
  "\n\n--- Mensaje WhatsApp (" ++ ts ++ ") ---\n" ++ message ++ "\nAnálisis: " ++ summary

/-- The `update_data` dict built by `OdooService._update_existing_lead_basic`
from the lead's current `name`/`description` and the validated incoming
data.  (The write `crm.lead.write(lead_id, update_data)` applying it is
`odooWrite`.) -/
def updateExistingLeadBasic (currentName currentDescription : String)
    (newData : PyDict) (message ts : String) (aiAnalysis : PyVal) : PyDict :=
  let u1 : PyDict :=
    [("description", .str (currentDescription ++
        newMessageSection ts message (extractBasicAnalysis aiAnalysis)))]
  let u2 :=
    if (dictGetD newData "contact_name" .none).truthy &&
       (hasSubstr "Sin Nombre".data currentName.data ||
        hasSubstr "WhatsApp".data currentName.data) then
      u1 ++ [("name", dictGetD newData "name" (.str currentName))]
    else u1
  let addIf (acc : PyDict) (field : String) : PyDict :=
    if (dictGetD newData field .none).truthy then acc ++ [(field, dictGetD newData field .none)]
    else acc
  addIf (addIf (addIf u2 "email_from") "city") "contact_name"

/-- Applying an Odoo `write(id, update_data)` to a record's fields. -/
def odooWrite (fields updateData : PyDict) : PyDict :=
  updateData.foldl (fun acc kv => dictSet acc kv.1 kv.2) fields

/-- `"{v:.2f}"`: only numbers (and booleans) format; the decimal digit
string of CPython floats is abstracted. -/
def pyFormat2f (v : PyVal) : Except Unit String :=
  match v with
  | .num q => .ok (toString q)
  | .bool b => .ok (if b then "1.00" else "0.00")
  | _ => .error ()

/-- `sep.join(v)`: every iterated element must be a string. -/
def pyJoin (sep : String) (v : PyVal) : Except Unit String := do
  let xs ← pyIter v
  let strs ← xs.mapM (fun x =>
    match x with
    | PyVal.str s => Except.ok s
    | _ => Except.error ())
  .ok (String.intercalate sep strs)

/-- `v[0]`. -/
def pyIndex0 (v : PyVal) : Except Unit PyVal :=
  match v with
  | .arr (x :: _) => .ok x
  | .str s =>
    match s.data with
    | c :: _ => .ok (.str (String.mk [c]))
    | [] => .error ()
  | _ => .error ()

def capFirst (w : String) : String :=
  match w.data with
  | [] => ""
  | c :: cs => String.mk (c.toUpper :: cs.map Char.toLower)

/-- `v.title()`: word boundaries abstracted to spaces (the produced lead
names are not inspected by any claim). -/
def pyTitle (v : PyVal) : Except Unit String :=
  match v with
  | .str s => .ok (String.intercalate " " ((s.splitOn " ").map capFirst))
  | _ => .error ()

/-- `v[:n]`. -/
def pySlice (n : Nat) (v : PyVal) : Except Unit PyVal :=
  match v with
  | .str s => .ok (.str (String.mk (s.data.take n)))
  | .arr xs => .ok (.arr (xs.take n))
  | _ => .error ()

/-- `AIClassifier._map_quality_to_priority`. -/
def mapQualityToPriority (quality : PyVal) : String :=
  if pyEqb quality (.str "hot") then "3"
  else if pyEqb quality (.str "warm") then "2"
  else if pyEqb quality (.str "cold") then "1"
  else "1"

/-- `AIClassifier._generate_smart_lead_name`. -/
def generateSmartLeadName (extracted : PyDict) (phone : String) (quality : String) :
    Except Unit String := do
  let name := dictGetD extracted "name" .none
  let products := dictGetD extracted "product_interest" (.arr [])
  if name.truthy && products.truthy then do
    let mp ← pyIndex0 products
    let t ← pyTitle mp
    Except.ok (pyToStr name ++ " - " ++ t ++ " (" ++ quality.toUpper ++ ")")
  else if name.truthy then
    Except.ok (pyToStr name ++ " - Consulta (" ++ quality.toUpper ++ ")")
  else if products.truthy then do
    let mp ← pyIndex0 products
    let t ← pyTitle mp
    Except.ok ("Lead " ++ quality.toUpper ++ " - " ++ t)
  else
    Except.ok ("Lead " ++ quality.toUpper ++ " - " ++
      String.mk (phone.data.drop (phone.length - 4)))

/-- `AIClassifier.format_lead_data_professional`. -/
def formatLeadDataProfessional (analysis : PyDict) (phone : String)
    (history : List PyVal) : Except Unit PyDict := do
  match dictGetD analysis "extracted_data" (.obj []) with
  | .obj extracted => do
    let leadQualityV := dictGetD analysis "lead_quality" (.str "warm")
    let lq ← (match leadQualityV with
              | PyVal.str s => Except.ok s
              | _ => Except.error ())
    let conf ← pyFormat2f (dictGetD analysis "confidence_score" (.num 0))
    let p1 := ["=== LEAD " ++ lq.toUpper ++ " DESDE WHATSAPP ===",
               "Confianza del análisis: " ++ conf,
               "Necesidad específica: " ++ pyToStr (dictGetD extracted "intent" (.str "No especificada")),
               "Fuente: WhatsApp API Automatizada COLINEAL"]
    let p2 := if history.isEmpty then p1
              else p1 ++ ["Conversación de " ++ toString history.length ++ " mensajes"]
    let p3 ←
      if (dictGetD extracted "product_interest" .none).truthy then do
        let j ← pyJoin ", " (dictGetD extracted "product_interest" .none)
        Except.ok (p2 ++ ["Productos de interés: " ++ j])
      else Except.ok p2
    let p4 := if (dictGetD extracted "budget_range" .none).truthy then
                p3 ++ ["Presupuesto mencionado: " ++ pyToStr (dictGetD extracted "budget_range" .none)]
              else p3
    let p5 := if (dictGetD extracted "urgency" .none).truthy then
                p4 ++ ["Nivel de urgencia: " ++ pyToStr (dictGetD extracted "urgency" .none)]
              else p4
    let p6 ←
      if history.isEmpty then Except.ok p5
      else do
        let last3 := history.drop (history.length - 3)
        let lines ← (List.enumFrom 1 last3).mapM (fun mi =>
          match mi.2 with
          | PyVal.obj m => do
            let mtype := if pyEqb (dictGetD m "type" .none) (.str "user") then "Cliente" else "Asistente"
            let sl ← pySlice 100 (dictGetD m "message" (.str ""))
            Except.ok (toString mi.1 ++ ". " ++ mtype ++ ": " ++ pyToStr sl ++ "...")
          | _ => Except.error ())
        Except.ok (p5 ++ ["\n=== HISTORIAL DE CONVERSACIÓN ==="] ++ lines)
    let nm ← generateSmartLeadName extracted phone lq
    Except.ok [("name", .str nm), ("phone", .str phone),
               ("contact_name", dictGetD extracted "name" .none),
               ("email_from", dictGetD extracted "email" .none),
               ("city", dictGetD extracted "location" .none),
               ("description", .str (String.intercalate "\n" p6)),
               ("priority", .str (mapQualityToPriority leadQualityV))]
  | _ => .error ()

/-! ## Dedup gate (`src/services/redis_service.py`) -/

/-- The dedup store: marked message ids with their TTL in seconds. -/
abbrev DedupStore := List (String × Nat)

/-- `RedisService.is_message_processed`: `client.exists(wamid)`. -/
def isMessageProcessed (store : DedupStore) (wamid : String) : Bool :=
  store.any (fun kv => kv.1 = wamid)

/-- `RedisService.mark_message_as_processed`:
`client.setex(wamid, 86400, "processed")` (24-hour expiry). -/
def markMessageAsProcessed (store : DedupStore) (wamid : String) : DedupStore :=
  if store.any (fun kv => kv.1 = wamid) then
    store.map (fun kv => if kv.1 = wamid then (wamid, 86400) else kv)
  else store ++ [(wamid, 86400)]

/-! ## Webhook pipeline (`src/api/whatsapp_webhook.py`)

The pipeline is embedded as a function of an explicit environment
describing the outcome of each external call: per-call availability of
the Redis dedup check (`dedupCheckOk`), the Redis `setex` calls of the
conversation store (`convGetOk`/`convSetOk`) and of the dedup marking
(`markOk`), the parsed oracle outcome, Odoo connectivity (`odooOk`),
availability of the `helpdesk.ticket` model (`helpdeskOk`), and Twilio
delivery (`twilioOk`).  All `datetime.now()` timestamps of one request
are abstracted to the single string `ts`.  Store mutations and outbound
sends are collected in an effect trace. -/

inductive Effect where
  | convAppend (phone : String) (mtype : String)
  | completionSet (phone : String)
  | markProcessed (wamid : String)
  | recordCreate (id : Nat)
  | recordUpdate (id : Nat)
  | notify (dest : String) (body : String)
deriving DecidableEq

/-- An Odoo record (crm.lead) as the pipeline sees it. -/
structure LeadRec where
  id : Nat
  fields : PyDict
deriving DecidableEq

structure WebhookState where
  processed : DedupStore
  convs : List (String × List PyVal)
  completed : List String
  leads : List LeadRec
  tickets : List Nat
  nextId : Nat
deriving DecidableEq

structure Env where
  sigValid : Bool
  dedupCheckOk : Bool
  markOk : Bool
  convGetOk : Bool
  convSetOk : Bool
  oracle : OracleOutcome
  odooOk : Bool
  helpdeskOk : Bool
  twilioOk : Bool
  ts : String

/-- The form fields the webhook reads. -/
structure Req where
  smsMessageSid : Option String
  body : Option String
  fromNumber : Option String
deriving DecidableEq

inductive Resp where
  | forbidden
  | badRequest
  | duplicateIgnored
  | error500
  | ok (status : String)
deriving DecidableEq

/-- Result of a step that may raise into the webhook's generic
`except Exception` handler. -/
inductive StepRes where
  | done (r : Resp)
  | exn
deriving DecidableEq

def lookupConv (convs : List (String × List PyVal)) (phone : String) : List PyVal :=
  ((convs.find? (fun kv => kv.1 = phone)).map (fun kv => kv.2)).getD []

def setConv (convs : List (String × List PyVal)) (phone : String) (h : List PyVal) :
    List (String × List PyVal) :=
  if convs.any (fun kv => kv.1 = phone) then
    convs.map (fun kv => if kv.1 = phone then (phone, h) else kv)
  else convs ++ [(phone, h)]

/-- `_safe_send_whatsapp_message`: every failure (including the
`message[:50]` slice or the Twilio call raising on a non-string body) is
caught and reported as `False`; an effect is recorded only for a
delivered message. -/
def safeSendWhatsappMessage (env : Env) (phone : String) (message : PyVal) :
    Bool × List Effect :=
  if env.twilioOk then
    match message with
    | .str s => (true, [.notify phone s])
    | _ => (false, [])
  else (false, [])

/-- `ConversationService.add_message_to_conversation`: re-reads the
history, appends the new turn, trims to the last 50 and writes back; any
store failure is caught and logged, silently dropping the append. -/
def addMessageToConversation (env : Env) (st : WebhookState) (phone : String)
    (message : PyVal) (mtype : String) (analysis : PyVal) :
    WebhookState × List Effect :=
  let history := if env.convGetOk then lookupConv st.convs phone else []
  let stored := if analysis.truthy then analysis else .obj []
  let newMessage : PyVal := .obj [("timestamp", .str env.ts), ("message", message),
                                  ("type", .str mtype), ("analysis", stored)]
  let h1 := history ++ [newMessage]
  let h2 := if h1.length > 50 then h1.drop (h1.length - 50) else h1
  if env.convSetOk then
    ({ st with convs := setConv st.convs phone h2 }, [.convAppend phone mtype])
  else (st, [])

/-- `ConversationService.mark_lead_created`: the whole body is inside
`try/except`; a raising `get_conversation_context` aborts it silently. -/
def markLeadCreated (env : Env) (st : WebhookState) (phone : String) (leadId : Nat) :
    WebhookState × List Effect :=
  let history := if env.convGetOk then lookupConv st.convs phone else []
  match getConversationContextPure history with
  | .error _ => (st, [])
  | .ok _ =>
    let msg := "Lead creado exitosamente con ID: " ++ toString leadId
    let (st1, e1) := addMessageToConversation env st phone (.str msg) "system"
      (.obj [("lead_created", .bool true), ("lead_id", .num leadId)])
    if env.convSetOk then
      ({ st1 with completed := if st1.completed.contains phone then st1.completed
                               else st1.completed ++ [phone] },
       e1 ++ [.completionSet phone])
    else (st1, e1)

/-- Odoo `('phone', 'ilike', pat)`: case-insensitive substring match on
the stored field; an unset field does not match. -/
def ilikeMatch (stored : PyVal) (pat : String) : Bool :=
  match stored with
  | .str s => hasSubstr pat.toLower.data s.toLower.data
  | _ => false

/-- `OdooService._find_existing_lead`: any error (including a failing
connection) is caught and reported as `None`. -/
def findExistingLead (env : Env) (st : WebhookState) (phone : String) : Option Nat :=
  if env.odooOk then
    ((st.leads.find? (fun r => ilikeMatch (dictGetD r.fields "phone" .none) (cleanPhone phone))).map
      (fun r => r.id))
  else Option.none

/-- The note text of `OdooService._add_message_note_basic`. -/
def noteText (ts message summary : String) : String :=
  "\n\n--- Nota Automática (" ++ ts ++ ") ---\nMensaje: " ++ message ++
  "\nAnálisis: " ++ summary ++ "\nFuente: WhatsApp"

/-- Reads a record's description the way
`current_lead.get('description', '') or ''` does. -/
def leadDescription (fields : PyDict) : String :=
  match dictGet? fields "description" with
  | some (.str s) => s
  | _ => ""

/-- `OdooService.create_lead_from_whatsapp`: update the first lead whose
`phone` ilike-matches the cleaned number, else create a new lead and
append the automatic note to its description.  `.error` is the raise
re-thrown to the caller (`Exception("Error creando lead: ...")`). -/
def createLeadFromWhatsapp (env : Env) (st : WebhookState) (phone message : String)
    (aiAnalysis : PyVal) (leadData : PyDict) :
    Except Unit (Nat × WebhookState × List Effect) :=
  if env.odooOk then
    let validated := validateBasicLeadData leadData
    match findExistingLead env st phone with
    | some lid =>
      match st.leads.find? (fun r => r.id = lid) with
      | some r =>
        match dictGetD r.fields "name" (.str "") with
        | .str nm =>
          let upd := updateExistingLeadBasic nm (leadDescription r.fields) validated
                       message env.ts aiAnalysis
          let st' := { st with leads := st.leads.map (fun (q : LeadRec) =>
                        if q.id = lid then { q with fields := odooWrite q.fields upd } else q) }
          .ok (lid, st', [.recordUpdate lid])
        | _ => .error ()
      | Option.none => .error ()
    | Option.none =>
      let lid := st.nextId
      let st1 := { st with leads := st.leads ++ [LeadRec.mk lid validated], nextId := st.nextId + 1 }
      let note := noteText env.ts message (extractBasicAnalysis aiAnalysis)
      let st2 := { st1 with leads := st1.leads.map (fun (q : LeadRec) =>
                    if q.id = lid then
                      { q with fields := (dictSet q.fields "description"
                          (.str (leadDescription q.fields ++ note))) }
                    else q) }
      .ok (lid, st2, [.recordCreate lid, .recordUpdate lid])
  else .error ()

/-- `_handle_support_transfer_optimized`: helpdesk ticket creation with a
crm.lead fallback; every raise is caught and reported as
`support_transfer_failed`. -/
def handleSupportTransfer (env : Env) (st : WebhookState) (phone : String)
    (analysis : PyDict) (naturalResponse : PyVal) : Resp × WebhookState × List Effect :=
  match dictGetD analysis "extracted_data" (.obj []) with
  | .obj extracted =>
    if env.odooOk then
      let urg := dictGetD extracted "urgency" .none
      let baseName := "Soporte WhatsApp - " ++ phone
      let desc := "Consulta de soporte desde WhatsApp\n\nNecesidad: " ++
        pyToStr (dictGetD extracted "intent" (.str "No especificada")) ++
        "\nUrgencia: " ++ pyToStr (dictGetD extracted "urgency" (.str "medium")) ++
        "\nRespuesta enviada: " ++ pyToStr naturalResponse
      let prio := if pyEqb urg (.str "high") then "1" else "0"
      let tid := st.nextId
      if env.helpdeskOk then
        (.ok "support_transferred",
         { st with tickets := st.tickets ++ [tid], nextId := st.nextId + 1 },
         [.recordCreate tid])
      else
        let tdata : PyDict := [("name", .str ("[SOPORTE] " ++ baseName)),
                               ("description", .str desc),
                               ("partner_phone", .str phone),
                               ("priority", .str prio),
                               ("x_source", .str "WhatsApp")]
        (.ok "support_transferred",
         { st with leads := st.leads ++ [LeadRec.mk tid tdata], nextId := st.nextId + 1 },
         [.recordCreate tid])
    else (.ok "support_transfer_failed", st, [])
  | _ => (.ok "support_transfer_failed", st, [])

/-- The `except` block of `_create_hot_lead_optimized` (the error text of
the caught exception is abstracted to the empty string). -/
def leadCreationFailedBlock (env : Env) (st : WebhookState) (phone : String) :
    Resp × WebhookState × List Effect :=
  let errorMessage := "Hubo un problema técnico, pero hemos guardado tu información. Un asesor te contactará pronto."
  let (st1, e1) := addMessageToConversation env st phone (.str errorMessage) "assistant"
    (.obj [("action", .str "lead_creation_failed"), ("error", .str "")])
  let (_, e2) := safeSendWhatsappMessage env phone (.str errorMessage)
  (.ok "lead_creation_failed", st1, e1 ++ e2)

/-- `_create_hot_lead_optimized`.  `quality.upper()` runs before the
`try` block, so a non-string quality raises into the webhook's generic
handler (`.exn`). -/
def createHotLead (env : Env) (st : WebhookState) (phone : String) (analysis : PyDict)
    (message : String) (history : List PyVal) (naturalResponse : PyVal) :
    StepRes × WebhookState × List Effect :=
  match dictGetD analysis "lead_quality" (dictGetD analysis "quality_assessment" (.str "warm")) with
  | .str quality =>
    match formatLeadDataProfessional analysis phone history with
    | .error _ =>
      let (r, st', es) := leadCreationFailedBlock env st phone
      (.done r, st', es)
    | .ok leadData =>
      let aiA := (dictGet? analysis "analysis").getD (.obj analysis)
      match createLeadFromWhatsapp env st phone message aiA leadData with
      | .error _ =>
        let (r, st', es) := leadCreationFailedBlock env st phone
        (.done r, st', es)
      | .ok (lid, st1, e1) =>
        let (st2, e2) := markLeadCreated env st1 phone lid
        let needConfirm : Except Unit Bool :=
          if naturalResponse.truthy then
            match naturalResponse with
            | .str s => .ok (!(hasSubstr "contactará".data s.toLower.data))
            | _ => .error ()
          else .ok true
        match needConfirm with
        | .error _ =>
          let (r, st3, e3) := leadCreationFailedBlock env st2 phone
          (.done r, st3, e1 ++ e2 ++ e3)
        | .ok true =>
          let confirmation := "✅ He registrado tu información. Un especialista te contactará pronto."
          let (_, e3) := safeSendWhatsappMessage env phone (.str confirmation)
          let (st3, e4) := addMessageToConversation env st2 phone (.str confirmation) "assistant"
            (.obj [("action", .str "lead_confirmation"), ("lead_id", .num lid)])
          (.done (.ok (quality ++ "_lead_created")), st3, e1 ++ e2 ++ e3 ++ e4)
        | .ok false =>
          (.done (.ok (quality ++ "_lead_created")), st2, e1 ++ e2)
  | _ => (.exn, st, [])

/-- `_handle_warm_lead_nurturing`. -/
def handleWarmLead (env : Env) (st : WebhookState) (phone : String) (analysis : PyDict) :
    Resp × WebhookState × List Effect :=
  let (st1, e1) := addMessageToConversation env st phone
    (.str "[SISTEMA] Lead WARM en proceso de nurturing") "system"
    (.obj [("stage", .str "warm_nurturing"),
           ("missing_info", dictGetD analysis "missing_for_lead" (.arr [])),
           ("strategy", .str "continue_conversation_to_qualify")])
  (.ok "warm_lead_nurturing", st1, e1)

/-- `_process_intelligent_response_optimized`. -/
def processIntelligentResponse (env : Env) (st : WebhookState) (phone : String)
    (analysis : PyDict) (message : String) (history : List PyVal) :
    StepRes × WebhookState × List Effect :=
  let finalAction := dictGetD analysis "final_action"
                       (dictGetD analysis "recommended_action" (.str "continue_conversation"))
  let naturalResponse := dictGetD analysis "natural_response"
                           (dictGetD analysis "suggested_reply" (.str ""))
  let (st0, e0) :=
    if naturalResponse.truthy then
      let (_, eN) := safeSendWhatsappMessage env phone naturalResponse
      let (st', eA) := addMessageToConversation env st phone naturalResponse "assistant"
        (.obj [("action", finalAction), ("response_type", .str "natural")])
      (st', eN ++ eA)
    else (st, [])
  if pyEqb finalAction (.str "transfer_to_helpdesk") ||
     (dictGetD analysis "is_support_request" (.bool false)).truthy then
    let (r, st1, e1) := handleSupportTransfer env st0 phone analysis naturalResponse
    (.done r, st1, e0 ++ e1)
  else if pyEqb finalAction (.str "create_lead_immediate") || shouldCreateLead analysis then
    let (r, st1, e1) := createHotLead env st0 phone analysis message history naturalResponse
    (r, st1, e0 ++ e1)
  else if pyEqb finalAction (.str "nurture_and_qualify") then
    let (r, st1, e1) := handleWarmLead env st0 phone analysis
    (.done r, st1, e0 ++ e1)
  else
    let (r, st1, e1) := (Resp.ok "cold_lead_education", st0, ([] : List Effect))
    (.done r, st1, e0 ++ e1)

def emergencyMessage : String :=
  "Disculpa, tengo un problema técnico. Un asesor te contactará pronto."

/-- `receive_webhook`: the whole inbound pipeline.  An exception escaping
the handler (failed dedup check before the `try`, or a re-raised
`HTTPException` from the generic `except`, which first sends the
emergency message) is the framework's HTTP 500. -/
def receiveWebhook (env : Env) (st : WebhookState) (req : Req) :
    Resp × WebhookState × List Effect :=
  if env.sigValid then
    match req.smsMessageSid, req.body with
    | some wamid, some body =>
      if wamid = "" || body = "" then (.badRequest, st, [])
      else
        let phone := req.fromNumber.getD "Sin número"
        if env.dedupCheckOk then
          if isMessageProcessed st.processed wamid then (.duplicateIgnored, st, [])
          else
            let histStored := if env.convGetOk then lookupConv st.convs phone else []
            match getConversationContextPure histStored with
            | .error _ =>
              let (_, eE) := safeSendWhatsappMessage env phone (.str emergencyMessage)
              (.error500, st, eE)
            | .ok ctx =>
              let analysis := analyzeMessageCompleteness env.oracle
              let (st1, e1) := addMessageToConversation env st phone (.str body) "user"
                                 (.obj analysis)
              if env.markOk then
                let st2 := { st1 with processed := markMessageAsProcessed st1.processed wamid }
                let e2 := e1 ++ [Effect.markProcessed wamid]
                match processIntelligentResponse env st2 phone analysis body ctx.history5 with
                | (.done r, st3, e3) => (r, st3, e2 ++ e3)
                | (.exn, st3, e3) =>
                  let (_, eE) := safeSendWhatsappMessage env phone (.str emergencyMessage)
                  (.error500, st3, e2 ++ e3 ++ eE)
              else
                let (_, eE) := safeSendWhatsappMessage env phone (.str emergencyMessage)
                (.error500, st1, e1 ++ eE)
        else (.error500, st, [])
    | _, _ => (.badRequest, st, [])
  else (.forbidden, st, [])

/-! ## Interleaving model of the dedup admission (for claim C2)

`receive_webhook` performs the admission of a message id as two separate
Redis operations: `is_message_processed` (an `EXISTS`) at the start and
`mark_message_as_processed` (a `SETEX`) much later.  Two concurrent
deliveries of the same id are modelled as two threads, each running the
check step (pc 0) and, when admitted, the mark step (pc 1); a schedule
picks which thread performs its next atomic store operation. -/

structure DedupThread where
  pc : Nat
  admitted : Bool
deriving DecidableEq

structure DedupSys where
  store : DedupStore
  t1 : DedupThread
  t2 : DedupThread
deriving DecidableEq

/-- One atomic step of one thread: the check admits iff the id is not in
the store; the mark is the `setex` with the 24-hour TTL. -/
def dedupStepThread (wamid : String) (store : DedupStore) (t : DedupThread) :
    DedupStore × DedupThread :=
  match t.pc with
  | 0 => if isMessageProcessed store wamid then (store, ⟨2, false⟩) else (store, ⟨1, true⟩)
  | 1 => (markMessageAsProcessed store wamid, ⟨2, t.admitted⟩)
  | _ => (store, t)

/-- Run a schedule (`true` = thread 1 moves, `false` = thread 2 moves). -/
def dedupRun (wamid : String) (sched : List Bool) (s : DedupSys) : DedupSys :=
  sched.foldl (fun s pick =>
    if pick then
      let p := dedupStepThread wamid s.store s.t1
      { s with store := p.1, t1 := p.2 }
    else
      let p := dedupStepThread wamid s.store s.t2
      { s with store := p.1, t2 := p.2 }) s

def dedupInit : DedupSys := ⟨[], ⟨0, false⟩, ⟨0, false⟩⟩

/-! ## Effect observations used by the claims -/

/-- A conversation append of the user turn. -/
def isUserAppend : Effect → Bool
  | .convAppend _ t => t = "user"
  | _ => false

/-- Any conversation-store append. -/
def isConvAppend : Effect → Bool
  | .convAppend _ _ => true
  | _ => false

/-- The record id touched by a record-store create/update, if any. -/
def recordTarget : Effect → Option Nat
  | .recordCreate i => some i
  | .recordUpdate i => some i
  | _ => Option.none

/-- The distinct record ids created or updated in a trace. -/
def recordTargets (es : List Effect) : List Nat :=
  (es.filterMap recordTarget).dedup

/-- A marking of a message id as processed. -/
def isMarkEffect : Effect → Bool
  | .markProcessed _ => true
  | _ => false

/-- A notification (outbound send). -/
def isNotifyEffect : Effect → Bool
  | .notify _ _ => true
  | _ => false

/-- A trace with no user-turn conversation append and no dedup marking. -/
def noUserNoMark (es : List Effect) : Prop :=
  es.countP (fun e => isUserAppend e) = 0 ∧ es.countP (fun e => isMarkEffect e) = 0

instance {e a : Type} [DecidableEq e] [DecidableEq a] : DecidableEq (Except e a)
  | .error x, .error y =>
    match decEq x y with
    | isTrue h => isTrue (by rw [h])
    | isFalse h => isFalse (by intro hc; injection hc; contradiction)
  | .ok x, .ok y =>
    match decEq x y with
    | isTrue h => isTrue (by rw [h])
    | isFalse h => isFalse (by intro hc; injection hc; contradiction)
  | .error _, .ok _ => isFalse (fun hc => Except.noConfusion hc)
  | .ok _, .error _ => isFalse (fun hc => Except.noConfusion hc)

/-! ## Theorems -/

theorem find?_map_fst_pred (d : PyDict) (k : String) (v : PyVal) :
    (d.map (fun kv => if kv.1 = k then (k, v) else kv)).find? (fun kv => kv.1 = k) =
      (d.find? (fun kv => kv.1 = k)).map (fun kv => if kv.1 = k then (k, v) else kv) := by
  rw [List.find?_map]
  have hp : ((fun kv : String × PyVal => decide (kv.1 = k)) ∘
      (fun kv => if kv.1 = k then (k, v) else kv)) =
      (fun kv : String × PyVal => decide (kv.1 = k)) := by
    funext kv
    by_cases h : kv.1 = k <;> simp [h, Function.comp]
  rw [hp]

theorem dictGet?_dictSet_same (d : PyDict) (k : String) (v : PyVal) :
    dictGet? (dictSet d k v) k = some v := by
  unfold dictSet dictGet?
  by_cases h : containsKey d k = true
  · rw [if_pos h, find?_map_fst_pred]
    unfold containsKey at h
    obtain ⟨kv0, hmem, hp⟩ := List.any_eq_true.mp h
    have hsome : (d.find? (fun kv => kv.1 = k)).isSome := by
      rw [List.find?_isSome]
      exact ⟨kv0, hmem, hp⟩
    obtain ⟨kv1, hfind⟩ := Option.isSome_iff_exists.mp hsome
    have hk1 : kv1.1 = k := by
      have := List.find?_some hfind
      simpa using this
    simp [hfind, hk1]
  · rw [if_neg h]
    have hnone : d.find? (fun kv => kv.1 = k) = Option.none := by
      rw [List.find?_eq_none]
      intro kv hmem hp
      exact h (List.any_eq_true.mpr ⟨kv, hmem, hp⟩)
    rw [List.find?_append, hnone]
    simp

theorem dictGet?_dictSet_ne (d : PyDict) (k k' : String) (v : PyVal) (hne : k ≠ k') :
    dictGet? (dictSet d k' v) k = dictGet? d k := by
  unfold dictSet dictGet?
  by_cases h : containsKey d k' = true
  · rw [if_pos h, List.find?_map]
    have hpred : ((fun kv : String × PyVal => decide (kv.1 = k)) ∘
        (fun kv => if kv.1 = k' then (k', v) else kv)) =
        (fun kv : String × PyVal => decide (kv.1 = k)) := by
      funext kv
      by_cases hk : kv.1 = k' <;> simp [hk, Function.comp, Ne.symm hne]
    rw [hpred]
    cases hfind : d.find? (fun kv => kv.1 = k) with
    | none => simp
    | some kv1 =>
      have hk1 : kv1.1 = k := by
        have := List.find?_some hfind
        simpa using this
      have : ¬ kv1.1 = k' := by rw [hk1]; exact hne
      simp [this]
  · rw [if_neg h, List.find?_append]
    cases hfind : d.find? (fun kv => kv.1 = k) with
    | none => simp [Ne.symm hne]
    | some kv1 => simp

theorem dictGetD_dictSet_same (d : PyDict) (k : String) (v dflt : PyVal) :
    dictGetD (dictSet d k v) k dflt = v := by
  unfold dictGetD
  rw [dictGet?_dictSet_same]
  rfl

theorem dictGetD_dictSet_ne (d : PyDict) (k k' : String) (v dflt : PyVal) (hne : k ≠ k') :
    dictGetD (dictSet d k' v) k dflt = dictGetD d k dflt := by
  unfold dictGetD
  rw [dictGet?_dictSet_ne d k k' v hne]

theorem isObj_exists {v : PyVal} (hx : v.isObj = true) : ∃ kvs, v = .obj kvs := by
  cases v <;> simp [PyVal.isObj] at hx ⊢

/-- C4: for every Analysis dict with `is_support_request = true`, the
decision chain `_add_professional_logic` returns normally and sets
`final_action` to the support-transfer action (`"transfer_to_helpdesk"`
in the source's string vocabulary, `transfer_to_support` in the spec's
Action set), regardless of the `quality_assessment` and
`confidence_score` values; the support rule is tested first, so the
quality/confidence comparisons are never evaluated. -/
theorem decision_support_overrides (analysis : PyDict)
    (hs : dictGetD analysis "is_support_request" (.bool false) = .bool true)
    (hx : (dictGetD analysis "extracted_data" (.obj [])).isObj = true) :
    ∃ d', addProfessionalLogic analysis = .ok d' ∧
      dictGetD d' "final_action" .none = .str "transfer_to_helpdesk" ∧
      actionOfFinalAction "transfer_to_helpdesk" = some SpecAction.transfer_to_support := by
  obtain ⟨kvs, hkvs⟩ := isObj_exists hx
  have hx2 : dictGetD (dictSet (dictSet analysis "final_action" (.str "transfer_to_helpdesk"))
      "lead_quality" (dictGetD analysis "quality_assessment" (.str "cold")))
      "extracted_data" (.obj []) = .obj kvs := by
    rw [dictGetD_dictSet_ne _ _ _ _ _ (by decide), dictGetD_dictSet_ne _ _ _ _ _ (by decide), hkvs]
  have hmiss : ∃ ms, calculateMissingInfo
      (dictSet (dictSet analysis "final_action" (.str "transfer_to_helpdesk"))
        "lead_quality" (dictGetD analysis "quality_assessment" (.str "cold"))) = .ok ms := by
    unfold calculateMissingInfo
    rw [hx2]
    exact ⟨_, rfl⟩
  obtain ⟨ms, hms⟩ := hmiss
  refine ⟨dictSet (dictSet (dictSet analysis "final_action" (.str "transfer_to_helpdesk"))
      "lead_quality" (dictGetD analysis "quality_assessment" (.str "cold")))
      "missing_for_lead" (.arr ms), ?_, ?_, rfl⟩
  · unfold addProfessionalLogic
    rw [hs]
    simp only [PyVal.truthy, if_true]
    rw [show ((Except.ok "transfer_to_helpdesk" : Except Unit String) >>= fun fa =>
      (calculateMissingInfo (dictSet (dictSet analysis "final_action" (.str fa))
          "lead_quality" (dictGetD analysis "quality_assessment" (.str "cold"))) >>= fun missing =>
        Except.ok (dictSet (dictSet (dictSet analysis "final_action" (.str fa))
          "lead_quality" (dictGetD analysis "quality_assessment" (.str "cold")))
          "missing_for_lead" (.arr missing)))) =
      (calculateMissingInfo (dictSet (dictSet analysis "final_action" (.str "transfer_to_helpdesk"))
          "lead_quality" (dictGetD analysis "quality_assessment" (.str "cold"))) >>= fun missing =>
        Except.ok (dictSet (dictSet (dictSet analysis "final_action" (.str "transfer_to_helpdesk"))
          "lead_quality" (dictGetD analysis "quality_assessment" (.str "cold")))
          "missing_for_lead" (.arr missing))) from rfl]
    rw [hms]
    rfl
  · rw [dictGetD_dictSet_ne _ _ _ _ _ (by decide), dictGetD_dictSet_ne _ _ _ _ _ (by decide),
        dictGetD_dictSet_same]

/-- Witness for C4 at a concrete Analysis: hot quality and maximal
confidence, yet the support flag forces the support transfer. -/
theorem decision_support_overrides_witness :
    ∃ d', addProfessionalLogic
        [("is_support_request", .bool true), ("quality_assessment", .str "hot"),
         ("confidence_score", .num 1), ("has_sufficient_info", .bool true),
         ("extracted_data", .obj [])] = .ok d' ∧
      dictGetD d' "final_action" .none = .str "transfer_to_helpdesk" ∧
      actionOfFinalAction "transfer_to_helpdesk" = some SpecAction.transfer_to_support :=
  decision_support_overrides _ (by decide) (by decide)

/-- C3 (amended): every oracle outcome that raises — a timing-out or
failing oracle call, text that `json.loads` rejects, a parsed value that
is not a JSON object, or a parsed object on which the repair steps raise
— yields the byte-identical fixed fallback Analysis (`cold` quality,
confidence 0.1, support flag false, the generic greeting reply).  A
parseable JSON object whose repair succeeds is returned repaired instead
(see the counterexample: such a schema-violating object does NOT yield
the fallback). -/
theorem analyze_fallback_total (o : OracleOutcome) :
    (o = .error () → analyzeMessageCompleteness o = fallbackAnalysis) ∧
    (∀ v : PyVal, o = .ok v → v.isObj = false →
      analyzeMessageCompleteness o = fallbackAnalysis) ∧
    (∀ d : PyDict, o = .ok (.obj d) →
      (ensureCompatibility d >>= addProfessionalLogic) = .error () →
      analyzeMessageCompleteness o = fallbackAnalysis) ∧
    dictGetD fallbackAnalysis "quality_assessment" .none = .str "cold" ∧
    dictGetD fallbackAnalysis "confidence_score" .none = .num (mkRat 1 10) ∧
    dictGetD fallbackAnalysis "is_support_request" .none = .bool false ∧
    dictGetD fallbackAnalysis "suggested_reply" .none =
      .str "¡Hola! Soy el asistente de COLINEAL. ¿En qué puedo ayudarte hoy?" := by
  refine ⟨?_, ?_, ?_, by decide, by decide, by decide, by decide⟩
  · intro h
    subst h
    rfl
  · intro v hv hobj
    subst hv
    unfold analyzeMessageCompleteness
    cases v <;> simp [PyVal.isObj] at hobj ⊢
  · intro d hd herr
    subst hd
    show (match ensureCompatibility d >>= addProfessionalLogic with
      | Except.ok d2 => d2
      | Except.error _ => fallbackAnalysis) = fallbackAnalysis
    rw [herr]

/-- Witness for C3 at the failing oracle outcome. -/
theorem analyze_fallback_total_witness :
    analyzeMessageCompleteness (.error ()) = fallbackAnalysis :=
  (analyze_fallback_total (.error ())).1 rfl

/-- Counterexample for C3 as stated: the oracle output `{}` is a schema
violation (every required Analysis field is missing), yet the classifier
does not return the fixed fallback — it repairs the object field by
field, producing a value that differs from the fallback (e.g. confidence
0.0 instead of 0.1). -/
theorem analyze_schema_violation_cex :
    analyzeMessageCompleteness (.ok (.obj [])) ≠ fallbackAnalysis := by decide

theorem removeWamidTag_eq_self {l : List Char} (h : hasWamidTag l = false) :
    removeWamidTag l = l := by
  induction l using removeWamidTag.induct with
  | case1 rest =>
    rw [hasWamidTag] at h
    exact absurd h (by simp)
  | case2 c cs hne ih =>
    have h2 : hasWamidTag cs = false := by
      rw [hasWamidTag] at h
      · exact h
      · exact hne
    rw [removeWamidTag]
    · rw [ih h2]
    · exact hne
  | case3 => rfl

theorem removeChar_eq_self {ch : Char} {l : List Char} (h : ∀ c ∈ l, c ≠ ch) :
    removeChar ch l = l := by
  unfold removeChar
  exact List.filter_eq_self.mpr (fun c hc => by simpa using h c hc)

theorem not_mem_removeChar (ch : Char) (l : List Char) : ∀ c ∈ removeChar ch l, c ≠ ch := by
  intro c hc
  have := List.of_mem_filter hc
  simpa using this

theorem mem_removeChar_mono {ch : Char} {l : List Char} {c : Char} (h : c ∈ removeChar ch l) :
    c ∈ l := List.mem_of_mem_filter h

/-- C7 (amended): the phone normalization
`replace("whatsapp:", "").replace("+", "").replace(" ", "")` is
idempotent at every input whose normalized form no longer contains the
substring `"whatsapp:"` — in particular at every actual phone string
(digits, `+`, spaces, an optional `whatsapp:` transport prefix).  It is
NOT idempotent on all strings (see the counterexample): removing `+`/` `
after the prefix pass can assemble a new `"whatsapp:"` occurrence, which
only a second pass removes. -/
theorem cleanPhone_idempotent_on_normalized (s : String)
    (h : hasWamidTag (cleanPhoneChars s.data) = false) :
    cleanPhone (cleanPhone s) = cleanPhone s := by
  unfold cleanPhone
  show String.mk (cleanPhoneChars (cleanPhoneChars s.data)) = String.mk (cleanPhoneChars s.data)
  unfold cleanPhoneChars at h ⊢
  rw [removeWamidTag_eq_self h]
  rw [removeChar_eq_self (fun c hc => not_mem_removeChar '+' _ c (mem_removeChar_mono hc))]
  rw [removeChar_eq_self (fun c hc => not_mem_removeChar ' ' _ c hc)]

/-- Witness for C7 at a realistic transport-prefixed number. -/
theorem cleanPhone_idempotent_witness :
    cleanPhone (cleanPhone "whatsapp:+593 99 123 4567") = cleanPhone "whatsapp:+593 99 123 4567" :=
  cleanPhone_idempotent_on_normalized "whatsapp:+593 99 123 4567" (by decide)

/-- Counterexample for C7 as stated (idempotence for every input
string): normalizing `"whats app:"` removes the space and assembles the
string `"whatsapp:"`, which a second normalization pass erases, so
`normalize (normalize x) ≠ normalize x`. -/
theorem cleanPhone_idempotence_cex :
    cleanPhone (cleanPhone "whats app:") ≠ cleanPhone "whats app:" ∧
    cleanPhone "whats app:" = "whatsapp:" ∧
    cleanPhone (cleanPhone "whats app:") = "" := by
  refine ⟨?_, by decide, by decide⟩
  decide

/-- C8 (amended): the `update_data` built by `_update_existing_lead_basic`
(1) always sets `description` to the existing description with the
timestamped WhatsApp section appended — appended, never replaced;
(2) sets `name` only when the incoming `contact_name` is truthy AND the
existing name is a placeholder (contains `"Sin Nombre"` or `"WhatsApp"`);
(3) but sets `email_from`, `city` and `contact_name` whenever the
incoming value is truthy, with no check of the existing value — an
existing non-placeholder value of those fields IS replaced (see the
counterexample). -/
theorem updateLead_merge_spec (currentName currentDescription : String)
    (newData : PyDict) (message ts : String) (aiAnalysis : PyVal) :
    dictGet? (updateExistingLeadBasic currentName currentDescription newData message ts aiAnalysis)
        "description" =
      some (.str (currentDescription ++ newMessageSection ts message (extractBasicAnalysis aiAnalysis))) ∧
    dictGet? (updateExistingLeadBasic currentName currentDescription newData message ts aiAnalysis)
        "name" =
      (if (dictGetD newData "contact_name" .none).truthy &&
          (hasSubstr "Sin Nombre".data currentName.data ||
           hasSubstr "WhatsApp".data currentName.data) then
        some (dictGetD newData "name" (.str currentName))
      else Option.none) ∧
    dictGet? (updateExistingLeadBasic currentName currentDescription newData message ts aiAnalysis)
        "email_from" =
      (if (dictGetD newData "email_from" .none).truthy then
        some (dictGetD newData "email_from" .none) else Option.none) ∧
    dictGet? (updateExistingLeadBasic currentName currentDescription newData message ts aiAnalysis)
        "city" =
      (if (dictGetD newData "city" .none).truthy then
        some (dictGetD newData "city" .none) else Option.none) ∧
    dictGet? (updateExistingLeadBasic currentName currentDescription newData message ts aiAnalysis)
        "contact_name" =
      (if (dictGetD newData "contact_name" .none).truthy then
        some (dictGetD newData "contact_name" .none) else Option.none) := by
  unfold updateExistingLeadBasic
  split <;> split <;> split <;> split <;>
    simp_all [dictGet?, List.find?]

/-- Witness for C8 at concrete inputs (placeholder name, all incoming
fields set). -/
theorem updateLead_merge_spec_witness :
    dictGet? (updateExistingLeadBasic "Lead WhatsApp Sin Nombre" "Inicial"
        [("name", .str "María - Sofá"), ("contact_name", .str "María"),
         ("email_from", .str "maria@cliente.com")]
        "hola" "2024-01-01 00:00:00" (.obj []))
        "description" =
      some (.str ("Inicial" ++ newMessageSection "2024-01-01 00:00:00" "hola"
        (extractBasicAnalysis (.obj [])))) :=
  (updateLead_merge_spec "Lead WhatsApp Sin Nombre" "Inicial"
    [("name", .str "María - Sofá"), ("contact_name", .str "María"),
     ("email_from", .str "maria@cliente.com")]
    "hola" "2024-01-01 00:00:00" (.obj [])).1

/-- Counterexample for C8 as stated: an existing lead whose `email_from`
is the non-null, non-placeholder value `"antigua@cliente.com"` gets it
overwritten by the merge whenever the incoming email is truthy — the
merge never reads the existing value of `email_from`/`city`/`contact_name`
(the record read fetches only `description` and `name`). -/
theorem updateLead_overwrite_cex :
    dictGetD (odooWrite
      [("name", .str "María García"), ("email_from", .str "antigua@cliente.com"),
       ("phone", .str "593991234567"), ("description", .str "Inicial")]
      (updateExistingLeadBasic "María García" "Inicial"
        [("name", .str "X"), ("contact_name", .str "María"),
         ("email_from", .str "nueva@cliente.com")]
        "hola" "2024-01-01 00:00:00" (.obj []))) "email_from" .none =
      .str "nueva@cliente.com" ∧
    PyVal.str "nueva@cliente.com" ≠ .str "antigua@cliente.com" := by
  constructor
  · decide
  · decide

/-- C2 (amended): the dedup admission in the source is NOT one atomic
check-and-mark: it is a separate existence check
(`is_message_processed`, an `EXISTS`) followed — after the whole
classify/append pipeline — by a separate `SETEX` with the 24-hour expiry
(`mark_message_as_processed`).  Under sequential (non-overlapping)
delivery this still rejects the duplicate: running one delivery to
completion and then the second, the first is admitted, the second is
refused, and the id is marked with TTL 86400 s. -/
theorem dedup_admission_two_step (wamid : String) :
    (dedupRun wamid [true, true, false, false] dedupInit).t1.admitted = true ∧
    (dedupRun wamid [true, true, false, false] dedupInit).t2.admitted = false ∧
    (dedupRun wamid [true, true, false, false] dedupInit).store = [(wamid, 86400)] := by
  simp [dedupRun, dedupStepThread, dedupInit, isMessageProcessed, markMessageAsProcessed]

/-- Counterexample for C2 as stated: with the code's two-step admission,
the interleaving check₁–check₂–mark₁–mark₂ of two concurrent deliveries
of the same message id admits BOTH deliveries — exactly the race a
single atomic test-and-set would exclude. -/
theorem dedup_admission_race_cex :
    (dedupRun "SM123" [true, false, true, false] dedupInit).t1.admitted = true ∧
    (dedupRun "SM123" [true, false, true, false] dedupInit).t2.admitted = true := by
  decide

theorem pySetAdd_mem_mono {s : List PyVal} {x y : PyVal} (h : x ∈ s) : x ∈ pySetAdd s y := by
  unfold pySetAdd
  split
  · exact h
  · exact List.mem_append_left _ h

theorem pySetAdd_pairwise {s : List PyVal} {y : PyVal}
    (h : List.Pairwise (fun a b => pyEqb a b = false) s) :
    List.Pairwise (fun a b => pyEqb a b = false) (pySetAdd s y) := by
  unfold pySetAdd
  split
  · exact h
  · rename_i hmem
    rw [List.pairwise_append]
    refine ⟨h, List.pairwise_singleton _ _, ?_⟩
    intro a ha b hb
    simp only [List.mem_singleton] at hb
    subst hb
    have h2 : ∀ x ∈ s, ¬ (pyEqb x b = true) := by
      simpa [pyMem, List.any_eq_true] using hmem
    exact Bool.eq_false_iff.mpr (h2 a ha)

theorem setFold_char (xs : List PyVal) : ∀ (s s' : List PyVal),
    xs.foldlM (fun acc x => if pyHashable x then Except.ok (pySetAdd acc x)
      else Except.error ()) s = .ok s' →
    (∀ y ∈ s, y ∈ s') ∧
    (List.Pairwise (fun a b => pyEqb a b = false) s →
      List.Pairwise (fun a b => pyEqb a b = false) s') := by
  induction xs with
  | nil =>
    intro s s' h
    simp only [List.foldlM_nil, pure, Except.pure] at h
    cases h
    exact ⟨fun y hy => hy, fun hp => hp⟩
  | cons x xs ih =>
    intro s s' h
    rw [List.foldlM_cons] at h
    by_cases hx : pyHashable x = true
    · rw [if_pos hx] at h
      have h2 : xs.foldlM (fun acc x => if pyHashable x then Except.ok (pySetAdd acc x)
          else Except.error ()) (pySetAdd s x) = .ok s' := h
      obtain ⟨hmono, hpair⟩ := ih (pySetAdd s x) s' h2
      exact ⟨fun y hy => hmono y (pySetAdd_mem_mono hy),
             fun hp => hpair (pySetAdd_pairwise hp)⟩
    · rw [if_neg hx] at h
      exact Except.noConfusion h

theorem pySetUpdate_char {s : List PyVal} {v : PyVal} {s' : List PyVal}
    (h : pySetUpdate s v = .ok s') :
    (∀ y ∈ s, y ∈ s') ∧
    (List.Pairwise (fun a b => pyEqb a b = false) s →
      List.Pairwise (fun a b => pyEqb a b = false) s') := by
  unfold pySetUpdate at h
  cases hi : pyIter v with
  | error e =>
    rw [hi] at h
    exact Except.noConfusion h
  | ok xs =>
    rw [hi] at h
    exact setFold_char xs s s' h

theorem scalarUpd_name (e : PyDict) (c : Collected) :
    (scalarUpd e c).name = (if (dictGetD e "name" .none).truthy then
      dictGetD e "name" .none else c.name) := by
  unfold scalarUpd
  split <;> split <;> split <;> split <;> split <;> rfl

theorem scalarUpd_email (e : PyDict) (c : Collected) :
    (scalarUpd e c).email = (if (dictGetD e "email" .none).truthy then
      dictGetD e "email" .none else c.email) := by
  unfold scalarUpd
  split <;> split <;> split <;> split <;> split <;> rfl

theorem scalarUpd_location (e : PyDict) (c : Collected) :
    (scalarUpd e c).location = (if (dictGetD e "location" .none).truthy then
      dictGetD e "location" .none else c.location) := by
  unfold scalarUpd
  split <;> split <;> split <;> split <;> split <;> rfl

theorem scalarUpd_budget (e : PyDict) (c : Collected) :
    (scalarUpd e c).budget_range = (if (dictGetD e "budget_range" .none).truthy then
      dictGetD e "budget_range" .none else c.budget_range) := by
  unfold scalarUpd
  split <;> split <;> split <;> split <;> split <;> rfl

theorem scalarUpd_urgency (e : PyDict) (c : Collected) :
    (scalarUpd e c).urgency = (if (dictGetD e "urgency" .none).truthy then
      dictGetD e "urgency" .none else c.urgency) := by
  unfold scalarUpd
  split <;> split <;> split <;> split <;> split <;> rfl

theorem scalarUpd_pi (e : PyDict) (c : Collected) :
    (scalarUpd e c).product_interest = c.product_interest := by
  unfold scalarUpd
  split <;> split <;> split <;> split <;> split <;> rfl

theorem intentUpd_scalars (e : PyDict) (c : Collected) :
    (intentUpd e c).name = c.name ∧ (intentUpd e c).email = c.email ∧
    (intentUpd e c).location = c.location ∧ (intentUpd e c).budget_range = c.budget_range ∧
    (intentUpd e c).urgency = c.urgency ∧ (intentUpd e c).product_interest = c.product_interest := by
  unfold intentUpd
  split <;> exact ⟨rfl, rfl, rfl, rfl, rfl, rfl⟩

theorem interestUpd_char {e : PyDict} {c c1 : Collected} (h : interestUpd e c = .ok c1) :
    c1.name = c.name ∧ c1.email = c.email ∧ c1.location = c.location ∧
    c1.budget_range = c.budget_range ∧ c1.urgency = c.urgency ∧
    c1.specific_needs = c.specific_needs ∧
    (∀ x ∈ c.product_interest, x ∈ c1.product_interest) ∧
    (List.Pairwise (fun a b => pyEqb a b = false) c.product_interest →
      List.Pairwise (fun a b => pyEqb a b = false) c1.product_interest) := by
  unfold interestUpd at h
  split at h
  · cases hu : pySetUpdate c.product_interest (dictGetD e "product_interest" .none) with
    | error e2 =>
      rw [hu] at h
      exact Except.noConfusion h
    | ok s =>
      rw [hu] at h
      cases h
      obtain ⟨hm, hp⟩ := pySetUpdate_char hu
      exact ⟨rfl, rfl, rfl, rfl, rfl, rfl, hm, hp⟩
  · cases h
    exact ⟨rfl, rfl, rfl, rfl, rfl, rfl, fun x hx => hx, fun hp => hp⟩

theorem extractStep_char {c : Collected} {m : PyVal} {c1 : Collected}
    (h : extractStep c m = .ok c1) :
    c1.name = (if (dictGetD (extractedOf m) "name" .none).truthy then
      dictGetD (extractedOf m) "name" .none else c.name) ∧
    c1.email = (if (dictGetD (extractedOf m) "email" .none).truthy then
      dictGetD (extractedOf m) "email" .none else c.email) ∧
    c1.location = (if (dictGetD (extractedOf m) "location" .none).truthy then
      dictGetD (extractedOf m) "location" .none else c.location) ∧
    c1.budget_range = (if (dictGetD (extractedOf m) "budget_range" .none).truthy then
      dictGetD (extractedOf m) "budget_range" .none else c.budget_range) ∧
    c1.urgency = (if (dictGetD (extractedOf m) "urgency" .none).truthy then
      dictGetD (extractedOf m) "urgency" .none else c.urgency) ∧
    (∀ x ∈ c.product_interest, x ∈ c1.product_interest) ∧
    (List.Pairwise (fun a b => pyEqb a b = false) c.product_interest →
      List.Pairwise (fun a b => pyEqb a b = false) c1.product_interest) := by
  unfold extractStep at h
  split at h
  rotate_left
  · exact Except.noConfusion h
  rename_i mm
  split at h
  rotate_left
  · exact Except.noConfusion h
  rename_i aa ha
  split at h
  rotate_left
  · exact Except.noConfusion h
  rename_i ee he
  have hext : extractedOf (.obj mm) = ee := by
    unfold extractedOf asObj
    simp only
    rw [ha]
    simp only
    rw [he]
  rw [hext]
  cases hi : interestUpd ee (scalarUpd ee c) with
  | error e2 =>
    rw [hi] at h
    exact Except.noConfusion h
  | ok cmid =>
    rw [hi] at h
    have h2 : (Except.ok (intentUpd ee cmid) : Except Unit Collected) = Except.ok c1 := h
    cases h2
    obtain ⟨h1, hh2, h3, h4, h5, _, hm, hp⟩ := interestUpd_char hi
    obtain ⟨i1, i2, i3, i4, i5, i6⟩ := intentUpd_scalars ee cmid
    refine ⟨?_, ?_, ?_, ?_, ?_, ?_, ?_⟩
    · rw [i1, h1, scalarUpd_name]
    · rw [i2, hh2, scalarUpd_email]
    · rw [i3, h3, scalarUpd_location]
    · rw [i4, h4, scalarUpd_budget]
    · rw [i5, h5, scalarUpd_urgency]
    · intro x hx
      rw [i6]
      exact hm x (by rw [scalarUpd_pi]; exact hx)
    · intro hpw
      rw [i6]
      exact hp (by rw [scalarUpd_pi]; exact hpw)

theorem extractAux_char : ∀ (hist : List PyVal) (c c' : Collected),
    extractCollectedDataAux c hist = .ok c' →
    c'.name = lastTruthyFrom c.name (scalarStream hist "name") ∧
    c'.email = lastTruthyFrom c.email (scalarStream hist "email") ∧
    c'.location = lastTruthyFrom c.location (scalarStream hist "location") ∧
    c'.budget_range = lastTruthyFrom c.budget_range (scalarStream hist "budget_range") ∧
    c'.urgency = lastTruthyFrom c.urgency (scalarStream hist "urgency") ∧
    (∀ x ∈ c.product_interest, x ∈ c'.product_interest) ∧
    (List.Pairwise (fun a b => pyEqb a b = false) c.product_interest →
      List.Pairwise (fun a b => pyEqb a b = false) c'.product_interest) := by
  intro hist
  induction hist with
  | nil =>
    intro c c' h
    have h2 : (Except.ok c : Except Unit Collected) = Except.ok c' := h
    cases h2
    exact ⟨rfl, rfl, rfl, rfl, rfl, fun x hx => hx, fun hp => hp⟩
  | cons m ms ih =>
    intro c c' h
    unfold extractCollectedDataAux at h
    cases hs : extractStep c m with
    | error e =>
      rw [hs] at h
      exact Except.noConfusion h
    | ok c1 =>
      rw [hs] at h
      have h2 : extractCollectedDataAux c1 ms = .ok c' := h
      obtain ⟨n1, e1, l1, b1, u1, m1, p1⟩ := ih c1 c' h2
      obtain ⟨sn, se, sl, sb, su, sm, sp⟩ := extractStep_char hs
      have hstream : ∀ f : String,
          scalarStream (m :: ms) f = dictGetD (extractedOf m) f .none :: scalarStream ms f := by
        intro f
        simp [scalarStream]
      refine ⟨?_, ?_, ?_, ?_, ?_, ?_, ?_⟩
      · rw [n1, sn, hstream]
        rfl
      · rw [e1, se, hstream]
        rfl
      · rw [l1, sl, hstream]
        rfl
      · rw [b1, sb, hstream]
        rfl
      · rw [u1, su, hstream]
        rfl
      · exact fun x hx => m1 x (sm x hx)
      · exact fun hp => p1 (sp hp)

/-- C5 (amended): each scalar fact consolidates to the LAST Python-truthy
value of its stream — the code's "último valor válido gana" test
`if extracted.get(field):`, which skips null AND falsy values such as the
empty string (see the counterexample for the difference from plain
last-non-null). -/
theorem consolidation_scalar_lastwrite (hist : List PyVal) (c : Collected)
    (h : extractCollectedData hist = .ok c) :
    c.name = lastTruthy (scalarStream hist "name") ∧
    c.email = lastTruthy (scalarStream hist "email") ∧
    c.location = lastTruthy (scalarStream hist "location") ∧
    c.budget_range = lastTruthy (scalarStream hist "budget_range") ∧
    c.urgency = lastTruthy (scalarStream hist "urgency") := by
  obtain ⟨n1, e1, l1, b1, u1, _, _⟩ := extractAux_char hist collectedInit c h
  exact ⟨n1, e1, l1, b1, u1⟩

theorem extractAux_append (l1 l2 : List PyVal) : ∀ c,
    extractCollectedDataAux c (l1 ++ l2) =
      (extractCollectedDataAux c l1) >>= fun c1 => extractCollectedDataAux c1 l2 := by
  induction l1 with
  | nil =>
    intro c
    rfl
  | cons m ms ih =>
    intro c
    cases hs : extractStep c m with
    | error e =>
      have l : extractCollectedDataAux c ((m :: ms) ++ l2) = .error e := by
        show extractCollectedDataAux c (m :: (ms ++ l2)) = _
        rw [extractCollectedDataAux, hs]
        rfl
      have r : extractCollectedDataAux c (m :: ms) = .error e := by
        rw [extractCollectedDataAux, hs]
        rfl
      rw [l, r]
      rfl
    | ok c1 =>
      have l : extractCollectedDataAux c ((m :: ms) ++ l2) =
          extractCollectedDataAux c1 (ms ++ l2) := by
        show extractCollectedDataAux c (m :: (ms ++ l2)) = _
        rw [extractCollectedDataAux, hs]
        rfl
      have r : extractCollectedDataAux c (m :: ms) = extractCollectedDataAux c1 ms := by
        rw [extractCollectedDataAux, hs]
        rfl
      rw [l, r]
      exact ih c1

/-- C6 (amended): the consolidated `product_interest` set grows
monotonically — every element present after the first `k` turns is still
present after turn `k+1` — and never holds two `==`-equal elements; the
list the code finally returns (`list(set)`) is some permutation of that
set content, in an order chosen by the CPython set, NOT necessarily the
insertion order of first appearance (see the counterexample). -/
theorem product_interest_monotone_union (hist : List PyVal) (t : PyVal) (c' : Collected)
    (h : extractCollectedData (hist ++ [t]) = .ok c') :
    ∃ c, extractCollectedData hist = .ok c ∧
      (∀ x ∈ c.product_interest, x ∈ c'.product_interest) ∧
      List.Pairwise (fun a b => pyEqb a b = false) c'.product_interest ∧
      (∀ enum, validSetEnum enum →
        (pySetToList enum c'.product_interest).Perm c'.product_interest) := by
  unfold extractCollectedData at h ⊢
  rw [extractAux_append] at h
  cases hc : extractCollectedDataAux collectedInit hist with
  | error e =>
    rw [hc] at h
    exact Except.noConfusion h
  | ok c =>
    rw [hc] at h
    have h2 : extractCollectedDataAux c [t] = .ok c' := h
    obtain ⟨_, _, _, _, _, hm, _⟩ := extractAux_char [t] c c' h2
    have hpw : List.Pairwise (fun a b => pyEqb a b = false) c'.product_interest := by
      obtain ⟨_, _, _, _, _, _, hp⟩ := extractAux_char (hist ++ [t]) collectedInit c' (by
        rw [extractAux_append, hc]
        exact h2)
      exact hp (List.Pairwise.nil)
    exact ⟨c, rfl, hm, hpw, fun enum henum => henum c'.product_interest⟩

/-- Witness for C5: budget set to `$1000` in turn 1 and overwritten with
`$2000` in turn 2 consolidates to `$2000`. -/
theorem consolidation_scalar_lastwrite_witness :
    (Collected.mk .none .none [] .none (PyVal.str "$2000") .none []).budget_range =
      lastTruthy (scalarStream
        [.obj [("analysis", .obj [("extracted_data", .obj [("budget_range", .str "$1000")])])],
         .obj [("analysis", .obj [("extracted_data", .obj [("budget_range", .str "$2000")])])]]
        "budget_range") :=
  (consolidation_scalar_lastwrite
    [.obj [("analysis", .obj [("extracted_data", .obj [("budget_range", .str "$1000")])])],
     .obj [("analysis", .obj [("extracted_data", .obj [("budget_range", .str "$2000")])])]]
    (Collected.mk .none .none [] .none (PyVal.str "$2000") .none [])
    (by decide)).2.2.2.1

/-- Counterexample for C5 as stated: a name set to `"Alicia"` in turn 1
and overwritten with the non-null empty string `""` in turn 2
consolidates to `"Alicia"` in the code (the `if extracted.get("name"):`
test skips falsy values), whereas last-non-null would give `""`. -/
theorem consolidation_scalar_nonnull_cex :
    (extractCollectedData
      [.obj [("analysis", .obj [("extracted_data", .obj [("name", .str "Alicia")])])],
       .obj [("analysis", .obj [("extracted_data", .obj [("name", .str "")])])]]).toOption.map
        (fun c => c.name) = some (.str "Alicia") ∧
    lastNonNull (scalarStream
      [.obj [("analysis", .obj [("extracted_data", .obj [("name", .str "Alicia")])])],
       .obj [("analysis", .obj [("extracted_data", .obj [("name", .str "")])])]]
      "name") = .str "" ∧
    PyVal.str "Alicia" ≠ PyVal.str "" := by
  refine ⟨by decide, by decide, by decide⟩

/-- Witness for C6: turn 1 contributes `sofá`, turn 2 contributes
`mesa`; the consolidated set after turn 2 still contains `sofá`. -/
theorem product_interest_monotone_union_witness :
    ∃ c, extractCollectedData
        [.obj [("analysis", .obj [("extracted_data",
          .obj [("product_interest", .arr [.str "sofá"])])])]] = .ok c ∧
      (∀ x ∈ c.product_interest,
        x ∈ (Collected.mk .none .none [PyVal.str "sofá", PyVal.str "mesa"]
              .none .none .none []).product_interest) ∧
      List.Pairwise (fun a b => pyEqb a b = false)
        (Collected.mk .none .none [PyVal.str "sofá", PyVal.str "mesa"]
          .none .none .none []).product_interest ∧
      (∀ enum, validSetEnum enum →
        (pySetToList enum (Collected.mk .none .none [PyVal.str "sofá", PyVal.str "mesa"]
            .none .none .none []).product_interest).Perm
          (Collected.mk .none .none [PyVal.str "sofá", PyVal.str "mesa"]
            .none .none .none []).product_interest) :=
  product_interest_monotone_union
    [.obj [("analysis", .obj [("extracted_data",
      .obj [("product_interest", .arr [.str "sofá"])])])]]
    (.obj [("analysis", .obj [("extracted_data",
      .obj [("product_interest", .arr [.str "mesa"])])])])
    (Collected.mk .none .none [PyVal.str "sofá", PyVal.str "mesa"] .none .none .none [])
    (by decide)

/-- Counterexample for C6 as stated: the code converts the accumulated
Python `set` to a list with `list(...)`, whose iteration order is
hash-based and unspecified (string hashing is even salted per process);
reversal is an admissible enumeration of a two-element set, and it does
not preserve the insertion order of first appearance (`sofá` before
`mesa`). -/
theorem product_interest_order_cex :
    validSetEnum List.reverse ∧
    (extractCollectedData
      [.obj [("analysis", .obj [("extracted_data",
        .obj [("product_interest", .arr [.str "sofá"])])])],
       .obj [("analysis", .obj [("extracted_data",
        .obj [("product_interest", .arr [.str "mesa"])])])]]).toOption.map
        (fun c => pySetToList List.reverse c.product_interest) =
      some [.str "mesa", .str "sofá"] ∧
    (extractCollectedData
      [.obj [("analysis", .obj [("extracted_data",
        .obj [("product_interest", .arr [.str "sofá"])])])],
       .obj [("analysis", .obj [("extracted_data",
        .obj [("product_interest", .arr [.str "mesa"])])])]]).toOption.map
        (fun c => c.product_interest) = some [.str "sofá", .str "mesa"] ∧
    ([PyVal.str "mesa", PyVal.str "sofá"] ≠ [PyVal.str "sofá", PyVal.str "mesa"]) :=
  ⟨fun l => List.reverse_perm l, by decide, by decide, by decide⟩

/-! ## Effect-trace lemmas for the webhook pipeline (claims C1, C9, C10) -/

theorem noUserNoMark_nil : noUserNoMark [] := ⟨rfl, rfl⟩

theorem noUserNoMark_append {e1 e2 : List Effect} (h1 : noUserNoMark e1) (h2 : noUserNoMark e2) :
    noUserNoMark (e1 ++ e2) := by
  unfold noUserNoMark at h1 h2 ⊢
  simp [List.countP_append, h1.1, h1.2, h2.1, h2.2]

theorem safeSend_effects (env : Env) (p : String) (m : PyVal) :
    noUserNoMark (safeSendWhatsappMessage env p m).2 ∧
    (safeSendWhatsappMessage env p m).2.filterMap recordTarget = [] := by
  unfold safeSendWhatsappMessage noUserNoMark
  split
  · split <;> simp [isUserAppend, isMarkEffect, recordTarget]
  · simp

theorem addMessage_effects (env : Env) (st : WebhookState) (phone : String) (msg : PyVal)
    (mtype : String) (analysis : PyVal) (hm : mtype ≠ "user") :
    noUserNoMark (addMessageToConversation env st phone msg mtype analysis).2 ∧
    (addMessageToConversation env st phone msg mtype analysis).2.filterMap recordTarget = [] := by
  by_cases hcs : env.convSetOk = true
  · simp [addMessageToConversation, hcs, noUserNoMark, isUserAppend, isMarkEffect,
      recordTarget, hm]
  · simp [addMessageToConversation, hcs, noUserNoMark]

theorem addMessage_effects_shape (env : Env) (st : WebhookState) (phone : String) (msg : PyVal)
    (mtype : String) (analysis : PyVal) :
    (addMessageToConversation env st phone msg mtype analysis).2 =
      (if env.convSetOk then [Effect.convAppend phone mtype] else []) := by
  by_cases hcs : env.convSetOk = true
  · simp [addMessageToConversation, hcs]
  · simp [addMessageToConversation, hcs]

theorem markLeadCreated_effects (env : Env) (st : WebhookState) (phone : String) (lid : Nat) :
    noUserNoMark (markLeadCreated env st phone lid).2 ∧
    (markLeadCreated env st phone lid).2.filterMap recordTarget = [] := by
  obtain ⟨⟨ha1, ha2⟩, ha3⟩ := addMessage_effects env st phone
      (.str ("Lead creado exitosamente con ID: " ++ toString lid)) "system"
      (.obj [("lead_created", .bool true), ("lead_id", .num lid)]) (by decide)
  cases hctx : getConversationContextPure (if env.convGetOk then lookupConv st.convs phone else []) with
  | error e =>
    have he : (markLeadCreated env st phone lid).2 = [] := by
      simp [markLeadCreated, hctx]
    rw [he]
    exact ⟨noUserNoMark_nil, rfl⟩
  | ok ctx =>
    by_cases hcs : env.convSetOk = true
    · have he : (markLeadCreated env st phone lid).2 =
        (addMessageToConversation env st phone
          (.str ("Lead creado exitosamente con ID: " ++ toString lid)) "system"
          (.obj [("lead_created", .bool true), ("lead_id", .num lid)])).2 ++
          [Effect.completionSet phone] := by
        simp [markLeadCreated, hctx, hcs]
      rw [he]
      refine ⟨noUserNoMark_append ⟨ha1, ha2⟩ (by constructor <;> rfl), ?_⟩
      rw [List.filterMap_append, ha3]
      rfl
    · have he : (markLeadCreated env st phone lid).2 =
        (addMessageToConversation env st phone
          (.str ("Lead creado exitosamente con ID: " ++ toString lid)) "system"
          (.obj [("lead_created", .bool true), ("lead_id", .num lid)])).2 := by
        simp [markLeadCreated, hctx, hcs]
      rw [he]
      exact ⟨⟨ha1, ha2⟩, ha3⟩

theorem leadCreationFailedBlock_effects (env : Env) (st : WebhookState) (phone : String) :
    noUserNoMark (leadCreationFailedBlock env st phone).2.2 ∧
    (leadCreationFailedBlock env st phone).2.2.filterMap recordTarget = [] := by
  obtain ⟨⟨ha1, ha2⟩, ha3⟩ := addMessage_effects env st phone
    (.str "Hubo un problema técnico, pero hemos guardado tu información. Un asesor te contactará pronto.")
    "assistant" (.obj [("action", .str "lead_creation_failed"), ("error", .str "")]) (by decide)
  obtain ⟨⟨hs1, hs2⟩, hs3⟩ := safeSend_effects env phone
    (.str "Hubo un problema técnico, pero hemos guardado tu información. Un asesor te contactará pronto.")
  have he : (leadCreationFailedBlock env st phone).2.2 =
      (addMessageToConversation env st phone
        (.str "Hubo un problema técnico, pero hemos guardado tu información. Un asesor te contactará pronto.")
        "assistant" (.obj [("action", .str "lead_creation_failed"), ("error", .str "")])).2 ++
      (safeSendWhatsappMessage env phone
        (.str "Hubo un problema técnico, pero hemos guardado tu información. Un asesor te contactará pronto.")).2 := by
    simp [leadCreationFailedBlock]
  rw [he]
  refine ⟨noUserNoMark_append ⟨ha1, ha2⟩ ⟨hs1, hs2⟩, ?_⟩
  rw [List.filterMap_append, ha3, hs3]
  rfl

theorem handleSupportTransfer_effects (env : Env) (st : WebhookState) (phone : String)
    (analysis : PyDict) (nr : PyVal) :
    noUserNoMark (handleSupportTransfer env st phone analysis nr).2.2 ∧
    ((handleSupportTransfer env st phone analysis nr).2.2.filterMap recordTarget = [] ∨
      ∃ i, (handleSupportTransfer env st phone analysis nr).2.2.filterMap recordTarget = [i]) := by
  unfold handleSupportTransfer
  split
  · split
    · split
      · exact ⟨by constructor <;> rfl, Or.inr ⟨st.nextId, rfl⟩⟩
      · exact ⟨by constructor <;> rfl, Or.inr ⟨st.nextId, rfl⟩⟩
    · exact ⟨noUserNoMark_nil, Or.inl rfl⟩
  · exact ⟨noUserNoMark_nil, Or.inl rfl⟩

theorem createLeadFromWhatsapp_effects (env : Env) (st : WebhookState)
    (phone message : String) (aiA : PyVal) (leadData : PyDict)
    (lid : Nat) (st' : WebhookState) (es : List Effect)
    (h : createLeadFromWhatsapp env st phone message aiA leadData = .ok (lid, st', es)) :
    noUserNoMark es ∧
    (es.filterMap recordTarget = [lid] ∨ es.filterMap recordTarget = [lid, lid]) := by
  unfold createLeadFromWhatsapp at h
  split at h
  · split at h
    · split at h
      · split at h
        · cases h
          exact ⟨by constructor <;> rfl, Or.inl rfl⟩
        · exact Except.noConfusion h
      · exact Except.noConfusion h
    · cases h
      exact ⟨by constructor <;> rfl, Or.inr rfl⟩
  · exact Except.noConfusion h

theorem createHotLead_effects (env : Env) (st : WebhookState) (phone : String)
    (analysis : PyDict) (message : String) (history : List PyVal) (nr : PyVal) :
    noUserNoMark (createHotLead env st phone analysis message history nr).2.2 ∧
    ((createHotLead env st phone analysis message history nr).2.2.filterMap recordTarget = [] ∨
      ∃ i, (createHotLead env st phone analysis message history nr).2.2.filterMap recordTarget = [i] ∨
        (createHotLead env st phone analysis message history nr).2.2.filterMap recordTarget = [i, i]) := by
  cases hq : dictGetD analysis "lead_quality" (dictGetD analysis "quality_assessment" (.str "warm")) with
  | str quality =>
    cases hf : formatLeadDataProfessional analysis phone history with
    | error e =>
      obtain ⟨hb1, hb2⟩ := leadCreationFailedBlock_effects env st phone
      have he : (createHotLead env st phone analysis message history nr).2.2 =
          (leadCreationFailedBlock env st phone).2.2 := by
        simp [createHotLead, hq, hf]
      rw [he]
      exact ⟨hb1, Or.inl hb2⟩
    | ok leadData =>
      cases hc : createLeadFromWhatsapp env st phone message
          ((dictGet? analysis "analysis").getD (.obj analysis)) leadData with
      | error e =>
        obtain ⟨hb1, hb2⟩ := leadCreationFailedBlock_effects env st phone
        have he : (createHotLead env st phone analysis message history nr).2.2 =
            (leadCreationFailedBlock env st phone).2.2 := by
          simp [createHotLead, hq, hf, hc]
        rw [he]
        exact ⟨hb1, Or.inl hb2⟩
      | ok t =>
        obtain ⟨lid, st1, e1⟩ := t
        obtain ⟨hc1, hc2⟩ :=
          createLeadFromWhatsapp_effects env st phone message _ leadData lid st1 e1 hc
        obtain ⟨hm1, hm2⟩ := markLeadCreated_effects env st1 phone lid
        cases hnc : (if nr.truthy then
            (match nr with
             | PyVal.str s => Except.ok (!(hasSubstr "contactará".data s.toLower.data))
             | _ => (Except.error () : Except Unit Bool))
          else Except.ok true) with
        | error e =>
          obtain ⟨hb1, hb2⟩ :=
            leadCreationFailedBlock_effects env (markLeadCreated env st1 phone lid).1 phone
          have he : (createHotLead env st phone analysis message history nr).2.2 =
              e1 ++ (markLeadCreated env st1 phone lid).2 ++
              (leadCreationFailedBlock env (markLeadCreated env st1 phone lid).1 phone).2.2 := by
            simp [createHotLead, hq, hf, hc, hnc]
          rw [he]
          refine ⟨noUserNoMark_append (noUserNoMark_append hc1 hm1) hb1, Or.inr ⟨lid, ?_⟩⟩
          rw [List.filterMap_append, List.filterMap_append, hm2, hb2]
          rcases hc2 with h | h <;> rw [h] <;> simp
        | ok b =>
          cases b with
          | true =>
            obtain ⟨⟨hs1, hs2⟩, hs3⟩ := safeSend_effects env phone
              (.str "✅ He registrado tu información. Un especialista te contactará pronto.")
            obtain ⟨⟨haa1, haa2⟩, haa3⟩ := addMessage_effects env
              (markLeadCreated env st1 phone lid).1 phone
              (.str "✅ He registrado tu información. Un especialista te contactará pronto.")
              "assistant" (.obj [("action", .str "lead_confirmation"), ("lead_id", .num lid)])
              (by decide)
            have he : (createHotLead env st phone analysis message history nr).2.2 =
                e1 ++ (markLeadCreated env st1 phone lid).2 ++
                (safeSendWhatsappMessage env phone
                  (.str "✅ He registrado tu información. Un especialista te contactará pronto.")).2 ++
                (addMessageToConversation env (markLeadCreated env st1 phone lid).1 phone
                  (.str "✅ He registrado tu información. Un especialista te contactará pronto.")
                  "assistant"
                  (.obj [("action", .str "lead_confirmation"), ("lead_id", .num lid)])).2 := by
              simp [createHotLead, hq, hf, hc, hnc]
            rw [he]
            refine ⟨noUserNoMark_append (noUserNoMark_append
              (noUserNoMark_append hc1 hm1) ⟨hs1, hs2⟩) ⟨haa1, haa2⟩, Or.inr ⟨lid, ?_⟩⟩
            rw [List.filterMap_append, List.filterMap_append, List.filterMap_append,
              hm2, hs3, haa3]
            rcases hc2 with h | h <;> rw [h] <;> simp
          | false =>
            have he : (createHotLead env st phone analysis message history nr).2.2 =
                e1 ++ (markLeadCreated env st1 phone lid).2 := by
              simp [createHotLead, hq, hf, hc, hnc]
            rw [he]
            refine ⟨noUserNoMark_append hc1 hm1, Or.inr ⟨lid, ?_⟩⟩
            rw [List.filterMap_append, hm2]
            rcases hc2 with h | h <;> rw [h] <;> simp
  | none =>
    have he : (createHotLead env st phone analysis message history nr).2.2 = [] := by
      simp [createHotLead, hq]
    rw [he]
    exact ⟨noUserNoMark_nil, Or.inl rfl⟩
  | bool b =>
    have he : (createHotLead env st phone analysis message history nr).2.2 = [] := by
      simp [createHotLead, hq]
    rw [he]
    exact ⟨noUserNoMark_nil, Or.inl rfl⟩
  | num q =>
    have he : (createHotLead env st phone analysis message history nr).2.2 = [] := by
      simp [createHotLead, hq]
    rw [he]
    exact ⟨noUserNoMark_nil, Or.inl rfl⟩
  | arr xs =>
    have he : (createHotLead env st phone analysis message history nr).2.2 = [] := by
      simp [createHotLead, hq]
    rw [he]
    exact ⟨noUserNoMark_nil, Or.inl rfl⟩
  | obj kvs =>
    have he : (createHotLead env st phone analysis message history nr).2.2 = [] := by
      simp [createHotLead, hq]
    rw [he]
    exact ⟨noUserNoMark_nil, Or.inl rfl⟩

theorem handleWarmLead_effects (env : Env) (st : WebhookState) (phone : String)
    (analysis : PyDict) :
    noUserNoMark (handleWarmLead env st phone analysis).2.2 ∧
    (handleWarmLead env st phone analysis).2.2.filterMap recordTarget = [] := by
  obtain ⟨ha1, ha2⟩ := addMessage_effects env st phone
    (.str "[SISTEMA] Lead WARM en proceso de nurturing") "system"
    (.obj [("stage", .str "warm_nurturing"),
           ("missing_info", dictGetD analysis "missing_for_lead" (.arr [])),
           ("strategy", .str "continue_conversation_to_qualify")]) (by decide)
  exact ⟨ha1, ha2⟩

theorem recordTargets_key (es0 es1 : List Effect)
    (h0 : noUserNoMark es0) (h1 : noUserNoMark es1)
    (hr0 : es0.filterMap recordTarget = [])
    (hr1 : es1.filterMap recordTarget = [] ∨
      ∃ i, es1.filterMap recordTarget = [i] ∨ es1.filterMap recordTarget = [i, i]) :
    noUserNoMark (es0 ++ es1) ∧ (recordTargets (es0 ++ es1)).length ≤ 1 := by
  refine ⟨noUserNoMark_append h0 h1, ?_⟩
  unfold recordTargets
  rw [List.filterMap_append, hr0]
  rcases hr1 with h | ⟨i, h | h⟩ <;> rw [h] <;> simp

theorem processIntelligentResponse_effects (env : Env) (st : WebhookState) (phone : String)
    (analysis : PyDict) (message : String) (history : List PyVal) :
    noUserNoMark (processIntelligentResponse env st phone analysis message history).2.2 ∧
    (recordTargets (processIntelligentResponse env st phone analysis message history).2.2).length ≤ 1 := by
  obtain ⟨hs1, hs3⟩ := safeSend_effects env phone
    (dictGetD analysis "natural_response" (dictGetD analysis "suggested_reply" (.str "")))
  obtain ⟨ha1, ha3⟩ := addMessage_effects env st phone
    (dictGetD analysis "natural_response" (dictGetD analysis "suggested_reply" (.str "")))
    "assistant"
    (.obj [("action", dictGetD analysis "final_action"
        (dictGetD analysis "recommended_action" (.str "continue_conversation"))),
      ("response_type", .str "natural")]) (by decide)
  have hpre1 := noUserNoMark_append hs1 ha1
  have hpre3 : ((safeSendWhatsappMessage env phone
        (dictGetD analysis "natural_response" (dictGetD analysis "suggested_reply" (.str "")))).2 ++
       (addMessageToConversation env st phone
        (dictGetD analysis "natural_response" (dictGetD analysis "suggested_reply" (.str "")))
        "assistant"
        (.obj [("action", dictGetD analysis "final_action"
            (dictGetD analysis "recommended_action" (.str "continue_conversation"))),
          ("response_type", .str "natural")])).2).filterMap recordTarget = [] := by
    rw [List.filterMap_append, hs3, ha3]; rfl
  set nr := dictGetD analysis "natural_response" (dictGetD analysis "suggested_reply" (.str "")) with hnr
  set fa := dictGetD analysis "final_action"
      (dictGetD analysis "recommended_action" (.str "continue_conversation")) with hfa
  by_cases hnat : nr.truthy = true
  · by_cases hb1 : (pyEqb fa (.str "transfer_to_helpdesk") || (dictGetD analysis "is_support_request" (.bool false)).truthy) = true
    · obtain ⟨ht1, ht2⟩ := handleSupportTransfer_effects env (addMessageToConversation env st phone nr "assistant" (PyVal.obj [("action", fa), ("response_type", PyVal.str "natural")])).1 phone analysis nr
      have he : (processIntelligentResponse env st phone analysis message history).2.2 = ((safeSendWhatsappMessage env phone nr).2 ++ (addMessageToConversation env st phone nr "assistant" (PyVal.obj [("action", fa), ("response_type", PyVal.str "natural")])).2) ++ (handleSupportTransfer env (addMessageToConversation env st phone nr "assistant" (PyVal.obj [("action", fa), ("response_type", PyVal.str "natural")])).1 phone analysis nr).2.2 := by
        simp [processIntelligentResponse, ← hnr, ← hfa, hnat, hb1]
      rw [he]
      exact recordTargets_key _ _ hpre1 ht1 hpre3 (by rcases ht2 with h | ⟨i, h⟩; exacts [Or.inl h, Or.inr ⟨i, Or.inl h⟩])
    · by_cases hb2 : (pyEqb fa (.str "create_lead_immediate") || shouldCreateLead analysis) = true
      · obtain ⟨ht1, ht2⟩ := createHotLead_effects env (addMessageToConversation env st phone nr "assistant" (PyVal.obj [("action", fa), ("response_type", PyVal.str "natural")])).1 phone analysis message history nr
        have he : (processIntelligentResponse env st phone analysis message history).2.2 = ((safeSendWhatsappMessage env phone nr).2 ++ (addMessageToConversation env st phone nr "assistant" (PyVal.obj [("action", fa), ("response_type", PyVal.str "natural")])).2) ++ (createHotLead env (addMessageToConversation env st phone nr "assistant" (PyVal.obj [("action", fa), ("response_type", PyVal.str "natural")])).1 phone analysis message history nr).2.2 := by
          simp [processIntelligentResponse, ← hnr, ← hfa, hnat, hb1, hb2]
        rw [he]
        exact recordTargets_key _ _ hpre1 ht1 hpre3 ht2
      · by_cases hb3 : pyEqb fa (.str "nurture_and_qualify") = true
        · obtain ⟨ht1, ht2⟩ := handleWarmLead_effects env (addMessageToConversation env st phone nr "assistant" (PyVal.obj [("action", fa), ("response_type", PyVal.str "natural")])).1 phone analysis
          have he : (processIntelligentResponse env st phone analysis message history).2.2 = ((safeSendWhatsappMessage env phone nr).2 ++ (addMessageToConversation env st phone nr "assistant" (PyVal.obj [("action", fa), ("response_type", PyVal.str "natural")])).2) ++ (handleWarmLead env (addMessageToConversation env st phone nr "assistant" (PyVal.obj [("action", fa), ("response_type", PyVal.str "natural")])).1 phone analysis).2.2 := by
            simp [processIntelligentResponse, ← hnr, ← hfa, hnat, hb1, hb2, hb3]
          rw [he]
          exact recordTargets_key _ _ hpre1 ht1 hpre3 (Or.inl ht2)
        · have he : (processIntelligentResponse env st phone analysis message history).2.2 = ((safeSendWhatsappMessage env phone nr).2 ++ (addMessageToConversation env st phone nr "assistant" (PyVal.obj [("action", fa), ("response_type", PyVal.str "natural")])).2) ++ ([] : List Effect) := by
            simp [processIntelligentResponse, ← hnr, ← hfa, hnat, hb1, hb2, hb3]
          rw [he]
          exact recordTargets_key _ _ hpre1 noUserNoMark_nil hpre3 (Or.inl rfl)
  · by_cases hb1 : (pyEqb fa (.str "transfer_to_helpdesk") || (dictGetD analysis "is_support_request" (.bool false)).truthy) = true
    · obtain ⟨ht1, ht2⟩ := handleSupportTransfer_effects env st phone analysis nr
      have he : (processIntelligentResponse env st phone analysis message history).2.2 = ([] : List Effect) ++ (handleSupportTransfer env st phone analysis nr).2.2 := by
        simp [processIntelligentResponse, ← hnr, ← hfa, hnat, hb1]
      rw [he]
      exact recordTargets_key _ _ noUserNoMark_nil ht1 rfl (by rcases ht2 with h | ⟨i, h⟩; exacts [Or.inl h, Or.inr ⟨i, Or.inl h⟩])
    · by_cases hb2 : (pyEqb fa (.str "create_lead_immediate") || shouldCreateLead analysis) = true
      · obtain ⟨ht1, ht2⟩ := createHotLead_effects env st phone analysis message history nr
        have he : (processIntelligentResponse env st phone analysis message history).2.2 = ([] : List Effect) ++ (createHotLead env st phone analysis message history nr).2.2 := by
          simp [processIntelligentResponse, ← hnr, ← hfa, hnat, hb1, hb2]
        rw [he]
        exact recordTargets_key _ _ noUserNoMark_nil ht1 rfl ht2
      · by_cases hb3 : pyEqb fa (.str "nurture_and_qualify") = true
        · obtain ⟨ht1, ht2⟩ := handleWarmLead_effects env st phone analysis
          have he : (processIntelligentResponse env st phone analysis message history).2.2 = ([] : List Effect) ++ (handleWarmLead env st phone analysis).2.2 := by
            simp [processIntelligentResponse, ← hnr, ← hfa, hnat, hb1, hb2, hb3]
          rw [he]
          exact recordTargets_key _ _ noUserNoMark_nil ht1 rfl (Or.inl ht2)
        · have he : (processIntelligentResponse env st phone analysis message history).2.2 = ([] : List Effect) ++ ([] : List Effect) := by
            simp [processIntelligentResponse, ← hnr, ← hfa, hnat, hb1, hb2, hb3]
          rw [he]
          exact recordTargets_key _ _ noUserNoMark_nil noUserNoMark_nil rfl (Or.inl rfl)

theorem addMessage_processed (env : Env) (st : WebhookState) (phone : String) (msg : PyVal)
    (mtype : String) (analysis : PyVal) :
    (addMessageToConversation env st phone msg mtype analysis).1.processed = st.processed := by
  by_cases h : env.convSetOk = true <;> simp [addMessageToConversation, h]

theorem markLeadCreated_processed (env : Env) (st : WebhookState) (phone : String) (lid : Nat) :
    (markLeadCreated env st phone lid).1.processed = st.processed := by
  cases hg : getConversationContextPure (if env.convGetOk then lookupConv st.convs phone else [])
  · simp [markLeadCreated, hg]
  · by_cases hcs : env.convSetOk = true <;>
      simp [markLeadCreated, hg, hcs, addMessage_processed]

theorem leadCreationFailedBlock_processed (env : Env) (st : WebhookState) (phone : String) :
    (leadCreationFailedBlock env st phone).2.1.processed = st.processed := by
  simp [leadCreationFailedBlock, addMessage_processed]

theorem createLeadFromWhatsapp_processed (env : Env) (st : WebhookState)
    (phone message : String) (aiA : PyVal) (leadData : PyDict)
    (lid : Nat) (st' : WebhookState) (es : List Effect)
    (h : createLeadFromWhatsapp env st phone message aiA leadData = .ok (lid, st', es)) :
    st'.processed = st.processed := by
  unfold createLeadFromWhatsapp at h
  split at h
  · split at h
    · split at h
      · split at h
        · cases h; rfl
        · exact Except.noConfusion h
      · exact Except.noConfusion h
    · cases h; rfl
  · exact Except.noConfusion h

theorem handleSupportTransfer_processed (env : Env) (st : WebhookState) (phone : String)
    (analysis : PyDict) (nr : PyVal) :
    (handleSupportTransfer env st phone analysis nr).2.1.processed = st.processed := by
  unfold handleSupportTransfer
  split
  · split
    · split
      · rfl
      · rfl
    · rfl
  · rfl

theorem createHotLead_processed (env : Env) (st : WebhookState) (phone : String)
    (analysis : PyDict) (message : String) (history : List PyVal) (nr : PyVal) :
    (createHotLead env st phone analysis message history nr).2.1.processed = st.processed := by
  cases hq : dictGetD analysis "lead_quality" (dictGetD analysis "quality_assessment" (.str "warm")) with
  | str quality =>
    cases hf : formatLeadDataProfessional analysis phone history with
    | error e =>
      have he : (createHotLead env st phone analysis message history nr).2.1 =
          (leadCreationFailedBlock env st phone).2.1 := by
        simp [createHotLead, hq, hf]
      rw [he, leadCreationFailedBlock_processed]
    | ok leadData =>
      cases hc : createLeadFromWhatsapp env st phone message
          ((dictGet? analysis "analysis").getD (.obj analysis)) leadData with
      | error e =>
        have he : (createHotLead env st phone analysis message history nr).2.1 =
            (leadCreationFailedBlock env st phone).2.1 := by
          simp [createHotLead, hq, hf, hc]
        rw [he, leadCreationFailedBlock_processed]
      | ok t =>
        obtain ⟨lid, st1, e1⟩ := t
        have hc3 := createLeadFromWhatsapp_processed env st phone message _ leadData lid st1 e1 hc
        cases hnc : (if nr.truthy then
            (match nr with
             | PyVal.str s => Except.ok (!(hasSubstr "contactará".data s.toLower.data))
             | _ => (Except.error () : Except Unit Bool))
          else Except.ok true) with
        | error e =>
          have he : (createHotLead env st phone analysis message history nr).2.1 =
              (leadCreationFailedBlock env (markLeadCreated env st1 phone lid).1 phone).2.1 := by
            simp [createHotLead, hq, hf, hc, hnc]
          rw [he, leadCreationFailedBlock_processed, markLeadCreated_processed, hc3]
        | ok b =>
          cases b with
          | true =>
            have he : (createHotLead env st phone analysis message history nr).2.1 =
                (addMessageToConversation env (markLeadCreated env st1 phone lid).1 phone
                  (.str "✅ He registrado tu información. Un especialista te contactará pronto.")
                  "assistant"
                  (.obj [("action", .str "lead_confirmation"), ("lead_id", .num lid)])).1 := by
              simp [createHotLead, hq, hf, hc, hnc]
            rw [he, addMessage_processed, markLeadCreated_processed, hc3]
          | false =>
            have he : (createHotLead env st phone analysis message history nr).2.1 =
                (markLeadCreated env st1 phone lid).1 := by
              simp [createHotLead, hq, hf, hc, hnc]
            rw [he, markLeadCreated_processed, hc3]
  | none => simp [createHotLead, hq]
  | bool b => simp [createHotLead, hq]
  | num q => simp [createHotLead, hq]
  | arr xs => simp [createHotLead, hq]
  | obj kvs => simp [createHotLead, hq]

theorem handleWarmLead_processed (env : Env) (st : WebhookState) (phone : String)
    (analysis : PyDict) :
    (handleWarmLead env st phone analysis).2.1.processed = st.processed := by
  have he : (handleWarmLead env st phone analysis).2.1 =
      (addMessageToConversation env st phone
        (.str "[SISTEMA] Lead WARM en proceso de nurturing") "system"
        (.obj [("stage", .str "warm_nurturing"),
               ("missing_info", dictGetD analysis "missing_for_lead" (.arr [])),
               ("strategy", .str "continue_conversation_to_qualify")])).1 := by
    simp [handleWarmLead]
  rw [he, addMessage_processed]

theorem processIntelligentResponse_processed (env : Env) (st : WebhookState) (phone : String)
    (analysis : PyDict) (message : String) (history : List PyVal) :
    (processIntelligentResponse env st phone analysis message history).2.1.processed =
      st.processed := by
  set nr := dictGetD analysis "natural_response" (dictGetD analysis "suggested_reply" (.str "")) with hnr
  set fa := dictGetD analysis "final_action"
      (dictGetD analysis "recommended_action" (.str "continue_conversation")) with hfa
  by_cases hnat : nr.truthy = true
  · by_cases hb1 : (pyEqb fa (.str "transfer_to_helpdesk") || (dictGetD analysis "is_support_request" (.bool false)).truthy) = true
    · have he : (processIntelligentResponse env st phone analysis message history).2.1 = (handleSupportTransfer env (addMessageToConversation env st phone nr "assistant" (PyVal.obj [("action", fa), ("response_type", PyVal.str "natural")])).1 phone analysis nr).2.1 := by
        simp [processIntelligentResponse, ← hnr, ← hfa, hnat, hb1]
      rw [he, handleSupportTransfer_processed, addMessage_processed]
    · by_cases hb2 : (pyEqb fa (.str "create_lead_immediate") || shouldCreateLead analysis) = true
      · have he : (processIntelligentResponse env st phone analysis message history).2.1 = (createHotLead env (addMessageToConversation env st phone nr "assistant" (PyVal.obj [("action", fa), ("response_type", PyVal.str "natural")])).1 phone analysis message history nr).2.1 := by
          simp [processIntelligentResponse, ← hnr, ← hfa, hnat, hb1, hb2]
        rw [he, createHotLead_processed, addMessage_processed]
      · by_cases hb3 : pyEqb fa (.str "nurture_and_qualify") = true
        · have he : (processIntelligentResponse env st phone analysis message history).2.1 = (handleWarmLead env (addMessageToConversation env st phone nr "assistant" (PyVal.obj [("action", fa), ("response_type", PyVal.str "natural")])).1 phone analysis).2.1 := by
            simp [processIntelligentResponse, ← hnr, ← hfa, hnat, hb1, hb2, hb3]
          rw [he, handleWarmLead_processed, addMessage_processed]
        · have he : (processIntelligentResponse env st phone analysis message history).2.1 = (addMessageToConversation env st phone nr "assistant" (PyVal.obj [("action", fa), ("response_type", PyVal.str "natural")])).1 := by
            simp [processIntelligentResponse, ← hnr, ← hfa, hnat, hb1, hb2, hb3]
          rw [he, addMessage_processed]
  · by_cases hb1 : (pyEqb fa (.str "transfer_to_helpdesk") || (dictGetD analysis "is_support_request" (.bool false)).truthy) = true
    · have he : (processIntelligentResponse env st phone analysis message history).2.1 = (handleSupportTransfer env st phone analysis nr).2.1 := by
        simp [processIntelligentResponse, ← hnr, ← hfa, hnat, hb1]
      rw [he, handleSupportTransfer_processed]
    · by_cases hb2 : (pyEqb fa (.str "create_lead_immediate") || shouldCreateLead analysis) = true
      · have he : (processIntelligentResponse env st phone analysis message history).2.1 = (createHotLead env st phone analysis message history nr).2.1 := by
          simp [processIntelligentResponse, ← hnr, ← hfa, hnat, hb1, hb2]
        rw [he, createHotLead_processed]
      · by_cases hb3 : pyEqb fa (.str "nurture_and_qualify") = true
        · have he : (processIntelligentResponse env st phone analysis message history).2.1 = (handleWarmLead env st phone analysis).2.1 := by
            simp [processIntelligentResponse, ← hnr, ← hfa, hnat, hb1, hb2, hb3]
          rw [he, handleWarmLead_processed]
        · have he : (processIntelligentResponse env st phone analysis message history).2.1 = st := by
            simp [processIntelligentResponse, ← hnr, ← hfa, hnat, hb1, hb2, hb3]
          rw [he]

theorem recordTargets_append_nil (es es2 : List Effect)
    (h : es2.filterMap recordTarget = []) :
    recordTargets (es ++ es2) = recordTargets es := by
  unfold recordTargets
  rw [List.filterMap_append, h, List.append_nil]

theorem webhook_fresh_decomp (env : Env) (st : WebhookState) (req : Req)
    (wamid body : String) (ctx : ConvContext)
    (hsig : env.sigValid = true)
    (hsid : req.smsMessageSid = some wamid)
    (hbody : req.body = some body)
    (hw : wamid ≠ "") (hb : body ≠ "")
    (hd : env.dedupCheckOk = true)
    (hfresh : isMessageProcessed st.processed wamid = false)
    (hctx : getConversationContextPure
      (if env.convGetOk then lookupConv st.convs (req.fromNumber.getD "Sin número") else []) =
      .ok ctx)
    (hmark : env.markOk = true) :
    ∃ post, (receiveWebhook env st req).2.2 =
        (if env.convSetOk then
          [Effect.convAppend (req.fromNumber.getD "Sin número") "user"] else []) ++
        [Effect.markProcessed wamid] ++ post ∧
      noUserNoMark post ∧
      (recordTargets post).length ≤ 1 ∧
      (receiveWebhook env st req).2.1.processed = markMessageAsProcessed st.processed wamid := by
  obtain ⟨hp1, hp2⟩ := processIntelligentResponse_effects env
    { (addMessageToConversation env st (req.fromNumber.getD "Sin número") (.str body) "user"
        (.obj (analyzeMessageCompleteness env.oracle))).1 with
      processed := markMessageAsProcessed
        (addMessageToConversation env st (req.fromNumber.getD "Sin número") (.str body) "user"
          (.obj (analyzeMessageCompleteness env.oracle))).1.processed wamid }
    (req.fromNumber.getD "Sin número") (analyzeMessageCompleteness env.oracle) body ctx.history5
  have hproc := processIntelligentResponse_processed env
    { (addMessageToConversation env st (req.fromNumber.getD "Sin número") (.str body) "user"
        (.obj (analyzeMessageCompleteness env.oracle))).1 with
      processed := markMessageAsProcessed
        (addMessageToConversation env st (req.fromNumber.getD "Sin número") (.str body) "user"
          (.obj (analyzeMessageCompleteness env.oracle))).1.processed wamid }
    (req.fromNumber.getD "Sin número") (analyzeMessageCompleteness env.oracle) body ctx.history5
  cases hp : processIntelligentResponse env
      { (addMessageToConversation env st (req.fromNumber.getD "Sin número") (.str body) "user"
          (.obj (analyzeMessageCompleteness env.oracle))).1 with
        processed := markMessageAsProcessed
          (addMessageToConversation env st (req.fromNumber.getD "Sin número") (.str body) "user"
            (.obj (analyzeMessageCompleteness env.oracle))).1.processed wamid }
      (req.fromNumber.getD "Sin número") (analyzeMessageCompleteness env.oracle) body
      ctx.history5 with
  | mk fst snd =>
    rw [hp] at hp1 hp2 hproc
    cases fst with
    | done r =>
      refine ⟨snd.2, ?_, hp1, hp2, ?_⟩
      · have he : (receiveWebhook env st req).2.2 =
            (addMessageToConversation env st (req.fromNumber.getD "Sin número") (.str body)
              "user" (.obj (analyzeMessageCompleteness env.oracle))).2 ++
            [Effect.markProcessed wamid] ++ snd.2 := by
          simp [receiveWebhook, hsig, hsid, hbody, hw, hb, hd, hfresh, hctx, hmark, hp]
        rw [he, addMessage_effects_shape]
      · have hst : (receiveWebhook env st req).2.1 = snd.1 := by
          simp [receiveWebhook, hsig, hsid, hbody, hw, hb, hd, hfresh, hctx, hmark, hp]
        rw [hst, hproc]
        simp [addMessage_processed]
    | exn =>
      refine ⟨snd.2 ++ (safeSendWhatsappMessage env (req.fromNumber.getD "Sin número")
        (.str emergencyMessage)).2, ?_, ?_, ?_, ?_⟩
      · have he : (receiveWebhook env st req).2.2 =
            (addMessageToConversation env st (req.fromNumber.getD "Sin número") (.str body)
              "user" (.obj (analyzeMessageCompleteness env.oracle))).2 ++
            [Effect.markProcessed wamid] ++
            (snd.2 ++ (safeSendWhatsappMessage env (req.fromNumber.getD "Sin número")
              (.str emergencyMessage)).2) := by
          simp [receiveWebhook, hsig, hsid, hbody, hw, hb, hd, hfresh, hctx, hmark, hp]
        rw [he, addMessage_effects_shape]
      · exact noUserNoMark_append hp1
          (safeSend_effects env (req.fromNumber.getD "Sin número") (.str emergencyMessage)).1
      · rw [recordTargets_append_nil _ _
          (safeSend_effects env (req.fromNumber.getD "Sin número") (.str emergencyMessage)).2]
        exact hp2
      · have hst : (receiveWebhook env st req).2.1 = snd.1 := by
          simp [receiveWebhook, hsig, hsid, hbody, hw, hb, hd, hfresh, hctx, hmark, hp]
        rw [hst, hproc]
        simp [addMessage_processed]

theorem recordTargets_nil_append (es1 es2 : List Effect)
    (h : es1.filterMap recordTarget = []) :
    recordTargets (es1 ++ es2) = recordTargets es2 := by
  unfold recordTargets
  rw [List.filterMap_append, h, List.nil_append]

/-- C1: a webhook delivery whose id the dedup check finds already marked is
a complete no-op (`duplicate-ignored` response, unchanged state, no effects).
A fresh id is processed with AT MOST one user-turn conversation append --
exactly one when the conversation store accepts the write -- and at most one
distinct lead record created or updated.  The unconditional "exactly one
append" of the claim fails when the conversation store write fails (see the
counterexample): the append is silently dropped. -/
theorem webhook_idempotent_admission (env : Env) (st : WebhookState) (req : Req)
    (wamid body : String)
    (hsig : env.sigValid = true)
    (hsid : req.smsMessageSid = some wamid)
    (hbody : req.body = some body)
    (hw : wamid ≠ "") (hb : body ≠ "")
    (hd : env.dedupCheckOk = true) :
    (isMessageProcessed st.processed wamid = true →
      receiveWebhook env st req = (.duplicateIgnored, st, [])) ∧
    (isMessageProcessed st.processed wamid = false →
      ∀ ctx, getConversationContextPure
        (if env.convGetOk then lookupConv st.convs (req.fromNumber.getD "Sin número") else []) =
        .ok ctx →
      ((receiveWebhook env st req).2.2.countP (fun e => isUserAppend e) ≤ 1 ∧
       (env.convSetOk = true →
         (receiveWebhook env st req).2.2.countP (fun e => isUserAppend e) = 1) ∧
       (recordTargets (receiveWebhook env st req).2.2).length ≤ 1)) := by
  constructor
  · intro hdup
    simp [receiveWebhook, hsig, hsid, hbody, hw, hb, hd, hdup]
  · intro hfresh ctx hctx
    have hpre0 : ∀ p : String,
        (if env.convSetOk then [Effect.convAppend p "user"] else []).filterMap recordTarget
          = [] := by
      intro p
      by_cases hcs : env.convSetOk = true <;> simp [hcs, recordTarget]
    have hprecnt : ∀ p : String,
        (if env.convSetOk then [Effect.convAppend p "user"] else []).countP
          (fun e => isUserAppend e) = (if env.convSetOk then 1 else 0) := by
      intro p
      by_cases hcs : env.convSetOk = true <;>
        simp [hcs, List.countP_cons, isUserAppend]
    by_cases hmark : env.markOk = true
    · obtain ⟨post, he, hnm, hrt, _⟩ := webhook_fresh_decomp env st req wamid body ctx
        hsig hsid hbody hw hb hd hfresh hctx hmark
      rw [he]
      refine ⟨?_, ?_, ?_⟩
      · rw [List.countP_append, List.countP_append, hprecnt, hnm.1]
        by_cases hcs : env.convSetOk = true <;> simp [hcs, List.countP_cons, isUserAppend]
      · intro hcs
        rw [List.countP_append, List.countP_append, hprecnt, hnm.1, hcs]
        simp [List.countP_cons, isUserAppend]
      · rw [List.append_assoc, recordTargets_nil_append _ _ (hpre0 _),
            recordTargets_nil_append _ _ (by simp [recordTarget])]
        exact hrt
    · have he : (receiveWebhook env st req).2.2 =
          (if env.convSetOk then
            [Effect.convAppend (req.fromNumber.getD "Sin número") "user"] else []) ++
          (safeSendWhatsappMessage env (req.fromNumber.getD "Sin número")
            (.str emergencyMessage)).2 := by
        simp [receiveWebhook, hsig, hsid, hbody, hw, hb, hd, hfresh, hctx, hmark,
          addMessage_effects_shape]
      obtain ⟨⟨hs1, _⟩, hs3⟩ := safeSend_effects env (req.fromNumber.getD "Sin número")
        (.str emergencyMessage)
      rw [he]
      refine ⟨?_, ?_, ?_⟩
      · rw [List.countP_append, hprecnt, hs1]
        by_cases hcs : env.convSetOk = true <;> simp [hcs]
      · intro hcs
        rw [List.countP_append, hprecnt, hs1, hcs]
        simp
      · rw [recordTargets_nil_append _ _ (hpre0 _)]
        unfold recordTargets
        rw [hs3]
        simp

theorem webhook_idempotent_admission_witness :
    receiveWebhook (Env.mk true true true true true (.error ()) false false false "t")
        (WebhookState.mk [("id1", 86400)] [] [] [] [] 1)
        (Req.mk (some "id1") (some "hola") (some "+15550001")) =
      (.duplicateIgnored, WebhookState.mk [("id1", 86400)] [] [] [] [] 1, []) ∧
    (receiveWebhook (Env.mk true true true true true (.error ()) false false false "t")
        (WebhookState.mk [] [] [] [] [] 1)
        (Req.mk (some "id1") (some "hola") (some "+15550001"))).2.2.countP
      (fun e => isUserAppend e) = 1 :=
  ⟨(webhook_idempotent_admission
      (Env.mk true true true true true (.error ()) false false false "t")
      (WebhookState.mk [("id1", 86400)] [] [] [] [] 1)
      (Req.mk (some "id1") (some "hola") (some "+15550001"))
      "id1" "hola" rfl rfl rfl (by decide) (by decide) rfl).1 (by decide),
   ((webhook_idempotent_admission
      (Env.mk true true true true true (.error ()) false false false "t")
      (WebhookState.mk [] [] [] [] [] 1)
      (Req.mk (some "id1") (some "hola") (some "+15550001"))
      "id1" "hola" rfl rfl rfl (by decide) (by decide) rfl).2 (by decide)
      ⟨"initial", []⟩ (by decide)).2.1 rfl⟩

theorem webhook_exactly_once_append_cex :
    isMessageProcessed (WebhookState.mk [] [] [] [] [] 1).processed "id1" = false ∧
    (receiveWebhook (Env.mk true true true true false (.error ()) false false false "t")
        (WebhookState.mk [] [] [] [] [] 1)
        (Req.mk (some "id1") (some "hola") (some "+15550001"))).1 =
      .ok "cold_lead_education" ∧
    (receiveWebhook (Env.mk true true true true false (.error ()) false false false "t")
        (WebhookState.mk [] [] [] [] [] 1)
        (Req.mk (some "id1") (some "hola") (some "+15550001"))).2.2.countP
      (fun e => isUserAppend e) = 0 := by
  refine ⟨rfl, ?_, ?_⟩ <;> decide

theorem isMessageProcessed_mark (store : DedupStore) (wamid : String) :
    isMessageProcessed (markMessageAsProcessed store wamid) wamid = true := by
  unfold isMessageProcessed markMessageAsProcessed
  by_cases h : store.any (fun kv => kv.1 = wamid) = true
  · rw [if_pos h, List.any_map, List.any_eq_true]
    rw [List.any_eq_true] at h
    obtain ⟨kv, hmem, hkv⟩ := h
    have hk : kv.1 = wamid := by simpa using hkv
    exact ⟨kv, hmem, by simp [Function.comp, hk]⟩
  · rw [if_neg h, List.any_append]
    simp

/-- C10: the id is marked as processed after the user-turn append and before
every record/notify effect: the effect trace decomposes as the (possibly
dropped) user append, then the mark, then a tail with no user appends and no
marks; afterwards the id tests as processed and a redelivery under any
signature-valid, dedup-reachable environment is the duplicate no-op.  If the
mark itself fails, or context loading raises before it, the request is a 500
and the id remains unmarked, so a redelivery is admitted by the dedup check. -/
theorem webhook_mark_ordering (env env2 : Env) (st : WebhookState) (req : Req)
    (wamid body : String)
    (hsig : env.sigValid = true)
    (hsid : req.smsMessageSid = some wamid)
    (hbody : req.body = some body)
    (hw : wamid ≠ "") (hb : body ≠ "")
    (hd : env.dedupCheckOk = true)
    (hfresh : isMessageProcessed st.processed wamid = false)
    (h2s : env2.sigValid = true) (h2d : env2.dedupCheckOk = true) :
    (∀ ctx, getConversationContextPure
        (if env.convGetOk then lookupConv st.convs (req.fromNumber.getD "Sin número") else []) =
        .ok ctx → env.markOk = true →
      ∃ post, (receiveWebhook env st req).2.2 =
          (if env.convSetOk then
            [Effect.convAppend (req.fromNumber.getD "Sin número") "user"] else []) ++
          [Effect.markProcessed wamid] ++ post ∧
        noUserNoMark post ∧
        isMessageProcessed (receiveWebhook env st req).2.1.processed wamid = true ∧
        receiveWebhook env2 (receiveWebhook env st req).2.1 req =
          (.duplicateIgnored, (receiveWebhook env st req).2.1, [])) ∧
    (∀ ctx, getConversationContextPure
        (if env.convGetOk then lookupConv st.convs (req.fromNumber.getD "Sin número") else []) =
        .ok ctx → env.markOk = false →
      (receiveWebhook env st req).1 = .error500 ∧
      isMessageProcessed (receiveWebhook env st req).2.1.processed wamid = false) ∧
    (getConversationContextPure
        (if env.convGetOk then lookupConv st.convs (req.fromNumber.getD "Sin número") else []) =
        .error () →
      receiveWebhook env st req =
        (.error500, st, (safeSendWhatsappMessage env (req.fromNumber.getD "Sin número")
          (.str emergencyMessage)).2)) := by
  refine ⟨?_, ?_, ?_⟩
  · intro ctx hctx hmark
    obtain ⟨post, he, hnm, _, hproc⟩ := webhook_fresh_decomp env st req wamid body ctx
      hsig hsid hbody hw hb hd hfresh hctx hmark
    have hmarked : isMessageProcessed (receiveWebhook env st req).2.1.processed wamid = true := by
      rw [hproc]
      exact isMessageProcessed_mark st.processed wamid
    refine ⟨post, he, hnm, hmarked, ?_⟩
    generalize (receiveWebhook env st req).2.1 = S at hmarked ⊢
    simp [receiveWebhook, h2s, hsid, hbody, hw, hb, h2d, hmarked]
  · intro ctx hctx hmark
    constructor
    · simp [receiveWebhook, hsig, hsid, hbody, hw, hb, hd, hfresh, hctx, hmark]
    · have hst : (receiveWebhook env st req).2.1 =
          (addMessageToConversation env st (req.fromNumber.getD "Sin número") (.str body)
            "user" (.obj (analyzeMessageCompleteness env.oracle))).1 := by
        simp [receiveWebhook, hsig, hsid, hbody, hw, hb, hd, hfresh, hctx, hmark]
      rw [hst, addMessage_processed]
      exact hfresh
  · intro hctx
    simp [receiveWebhook, hsig, hsid, hbody, hw, hb, hd, hfresh, hctx]

theorem webhook_mark_ordering_witness :
    receiveWebhook (Env.mk true true true true true (.error ()) false false false "t")
        (receiveWebhook (Env.mk true true true true true (.error ()) false false false "t")
          (WebhookState.mk [] [] [] [] [] 1)
          (Req.mk (some "id1") (some "hola") (some "+15550001"))).2.1
        (Req.mk (some "id1") (some "hola") (some "+15550001")) =
      (.duplicateIgnored,
       (receiveWebhook (Env.mk true true true true true (.error ()) false false false "t")
          (WebhookState.mk [] [] [] [] [] 1)
          (Req.mk (some "id1") (some "hola") (some "+15550001"))).2.1, []) ∧
    isMessageProcessed
      (receiveWebhook (Env.mk true true true true true (.error ()) false false false "t")
        (WebhookState.mk [] [] [] [] [] 1)
        (Req.mk (some "id1") (some "hola") (some "+15550001"))).2.1.processed "id1" = true := by
  obtain ⟨post, h1, h2, h3, h4⟩ := (webhook_mark_ordering
    (Env.mk true true true true true (.error ()) false false false "t")
    (Env.mk true true true true true (.error ()) false false false "t")
    (WebhookState.mk [] [] [] [] [] 1)
    (Req.mk (some "id1") (some "hola") (some "+15550001"))
    "id1" "hola" rfl rfl rfl (by decide) (by decide) rfl rfl rfl rfl).1
    ⟨"initial", []⟩ (by decide) rfl
  exact ⟨h4, h3⟩

/-- C9: only the dedup store half of the claim holds.  A failing dedup check
is surfaced as a 500 with no state mutation and no effects; but a failing
conversation store is NOT surfaced: reads degrade to an empty history and the
failed append of the user turn is silently dropped, while the pipeline still
classifies, marks the id as processed and returns a success response (shown
here on the deterministic oracle-fallback path with Twilio down). -/
theorem store_failure_surfacing (env : Env) (st : WebhookState) (req : Req)
    (wamid body : String)
    (hsig : env.sigValid = true)
    (hsid : req.smsMessageSid = some wamid)
    (hbody : req.body = some body)
    (hw : wamid ≠ "") (hb : body ≠ "") :
    (env.dedupCheckOk = false → receiveWebhook env st req = (.error500, st, [])) ∧
    (env.dedupCheckOk = true → isMessageProcessed st.processed wamid = false →
      env.convGetOk = false → env.convSetOk = false → env.markOk = true →
      env.oracle = .error () → env.twilioOk = false →
      receiveWebhook env st req =
        (.ok "cold_lead_education",
         { st with processed := markMessageAsProcessed st.processed wamid },
         [Effect.markProcessed wamid])) := by
  constructor
  · intro hdd
    simp [receiveWebhook, hsig, hsid, hbody, hw, hb, hdd]
  · intro hd hfresh hcg hcs hmark horacle htw
    have hana : analyzeMessageCompleteness env.oracle = fallbackAnalysis := by
      rw [horacle]; rfl
    have hctx0 : getConversationContextPure ([] : List PyVal) = .ok ⟨"initial", []⟩ := rfl
    simp +decide [receiveWebhook, processIntelligentResponse, addMessageToConversation,
      safeSendWhatsappMessage, hsig, hsid, hbody, hw, hb, hd, hfresh, hcg, hcs, hmark,
      htw, hana, hctx0]

theorem store_failure_surfacing_witness :
    receiveWebhook (Env.mk true false true true true (.error ()) false false false "t")
        (WebhookState.mk [] [] [] [] [] 1)
        (Req.mk (some "id1") (some "hola") (some "+15550001")) =
      (.error500, WebhookState.mk [] [] [] [] [] 1, []) ∧
    receiveWebhook (Env.mk true true true false false (.error ()) false false false "t")
        (WebhookState.mk [] [] [] [] [] 1)
        (Req.mk (some "id1") (some "hola") (some "+15550001")) =
      (.ok "cold_lead_education",
       { WebhookState.mk [] [] [] [] [] 1 with
         processed := markMessageAsProcessed (WebhookState.mk [] [] [] [] [] 1).processed "id1" },
       [Effect.markProcessed "id1"]) :=
  ⟨(store_failure_surfacing (Env.mk true false true true true (.error ()) false false false "t")
      (WebhookState.mk [] [] [] [] [] 1)
      (Req.mk (some "id1") (some "hola") (some "+15550001"))
      "id1" "hola" rfl rfl rfl (by decide) (by decide)).1 rfl,
   (store_failure_surfacing (Env.mk true true true false false (.error ()) false false false "t")
      (WebhookState.mk [] [] [] [] [] 1)
      (Req.mk (some "id1") (some "hola") (some "+15550001"))
      "id1" "hola" rfl rfl rfl (by decide) (by decide)).2 rfl rfl rfl rfl rfl rfl rfl⟩

theorem conv_store_silent_degradation_cex :
    (receiveWebhook (Env.mk true true true false false (.error ()) false false false "t")
        (WebhookState.mk [] [] [] [] [] 1)
        (Req.mk (some "id1") (some "hola") (some "+15550001"))).1 =
      .ok "cold_lead_education" ∧
    ¬ (receiveWebhook (Env.mk true true true false false (.error ()) false false false "t")
        (WebhookState.mk [] [] [] [] [] 1)
        (Req.mk (some "id1") (some "hola") (some "+15550001"))).1 = .error500 ∧
    (receiveWebhook (Env.mk true true true false false (.error ()) false false false "t")
        (WebhookState.mk [] [] [] [] [] 1)
        (Req.mk (some "id1") (some "hola") (some "+15550001"))).2.2.countP
      (fun e => isConvAppend e) = 0 := by
  refine ⟨?_, ?_, ?_⟩ <;> decide
